import Mathlib

set_option maxRecDepth 100000
set_option maxHeartbeats 1000000

/-!
Verification development for the bad-data workshop generator
(src/bad_data_workshop.py).

The repository is a single-file Python program that fills a relational
database with deliberately defective synthetic data.  We shallowly embed
the data-generation core in Lean:

* randomness is modelled by an oracle context `Ctx` holding three streams
  (floats drawn by random.random / random.uniform, naturals feeding
  random.randint / random.choice / random.sample, strings produced by the
  faker provider) together with the current wall-clock time `now`;
* every generator is a function in the monad `M` (reader over `Ctx`,
  state over the three stream counters) that returns the list of database
  events it performs (`exec` for DDL, `execMany` for a bulk insert batch,
  `commit`);
* faker date helpers take day offsets relative to `now`, mirroring
  date_time_between(start_date="-2y", end_date="now") and friends;
* float rendering, strftime and similar display-only formatting are
  modelled by explicit, injective-enough rendering functions, since no
  claim depends on their exact text.

All definitions are executable; theorems about the claims follow at the
end of the file.
-/

namespace BDW

/-- Oracle context: the seeded pseudo-random streams and the wall clock.
`floats k` is the value of the k-th random.random() call (in [0,1)),
`nats k` the entropy of the k-th integer draw, `strs k` the k-th faker
string, and `now` the current time in days. -/
structure Ctx where
  floats : Nat → ℚ
  nats : Nat → Nat
  strs : Nat → String
  now : Int

/-- Stream counters: how many draws of each kind have happened so far. -/
structure Cnt where
  fi : Nat
  ni : Nat
  si : Nat
deriving DecidableEq

/-- The generation monad: reader over the oracle, state over counters. -/
def M (α : Type) : Type := Ctx → Cnt → α × Cnt

instance : Monad M where
  pure a := fun _ s => (a, s)
  bind x f := fun ctx s =>
    let r := x ctx s
    f r.1 ctx r.2

@[simp] theorem bind_app {α β : Type} (x : M α) (f : α → M β) (ctx : Ctx) (s : Cnt) :
    (x >>= f) ctx s = f (x ctx s).1 ctx (x ctx s).2 := rfl

@[simp] theorem pure_app {α : Type} (a : α) (ctx : Ctx) (s : Cnt) :
    (pure a : M α) ctx s = (a, s) := rfl

/-- random.random(): one float draw. -/
def drawFloat : M ℚ := fun ctx s => (ctx.floats s.fi, { s with fi := s.fi + 1 })

/-- one unit of integer entropy (feeds randint / choice / sample). -/
def drawNat : M Nat := fun ctx s => (ctx.nats s.ni, { s with ni := s.ni + 1 })

/-- one faker-produced string (names, emails, companies, uuids, ...). -/
def fakeStr : M String := fun ctx s => (ctx.strs s.si, { s with si := s.si + 1 })

/-- read the current wall-clock time (days). -/
def nowM : M Int := fun ctx s => (ctx.now, s)

/-- random.randint(a, b): an integer in [a, b] (for a ≤ b). -/
def randint (a b : Int) : M Int := do
  let v ← drawNat
  pure (a + (v : Int) % (b - a + 1))

/-- random.choice(l): a uniformly chosen element of l. -/
def choose {α : Type} (l : List α) (dflt : α) : M α := do
  let v ← drawNat
  pure (l.getD (v % l.length) dflt)

/-- random.uniform(a, b): a float in [a, b]. -/
def uniform (a b : ℚ) : M ℚ := do
  let f ← drawFloat
  pure (a + (b - a) * f)

/-- faker date/datetime between two day offsets relative to now
(models fake.date_between / fake.date_time_between). -/
def fakeDateBetween (a b : Int) : M Int := do
  let t ← nowM
  let v ← drawNat
  pure ((t + a) + (v : Int) % (b - a + 1))

/-- random.sample(l, k): k distinct elements of l (as long as they last). -/
def sample {α : Type} (dflt : α) : List α → Nat → M (List α)
  | _, 0 => pure []
  | l, Nat.succ k =>
    if l.isEmpty then pure [] else do
      let v ← drawNat
      let i := v % l.length
      let x := l.getD i dflt
      let rest ← sample dflt (l.eraseIdx i) k
      pure (x :: rest)

/-- round(x, 2) on the rational model of a Python float. -/
def round2 (q : ℚ) : ℚ := (⌊q * 100 + mkRat 1 2⌋ : ℚ) / 100

/-- rendering of a float with a format marker (models f-string output such
as a plain 2-decimal rendering; no claim depends on the exact digits). -/
def fmtF2 (q : ℚ) : String := toString (round2 q)

/-- rendering with 4 decimals (abstract). -/
def fmtF4 (q : ℚ) : String := toString q ++ "#4f"

/-- datetime.strftime: abstract rendering of a date under a format. -/
def strfdate (fmt : String) (d : Int) : String := fmt ++ "#" ++ toString d

/-- left-pad a decimal string with zeros to the given width
(models format specs such as 06d and 010d). -/
def padZeros (w : Nat) (s : String) : String :=
  ⟨List.replicate (w - s.length) (Char.ofNat 48) ++ s.data⟩

/-- parse a digit string back to a natural number. -/
def parseNat (s : String) : Nat :=
  s.data.foldl (fun a c => a * 10 + (c.toNat - 48)) 0

/-- values carried by an inserted row. -/
inductive Val where
  | i (n : Int)
  | q (x : ℚ)
  | s (t : String)
  | b (v : Bool)
  | null
  | dt (t : Int)
deriving DecidableEq

/-- one inserted row, as the ordered list of its column values. -/
abbrev RowV := List Val

/-- database operations performed by a generator, in order.  `execMany`
records the (unprefixed) target table name together with the batch. -/
inductive DBEvent where
  | exec (sql : String)
  | execMany (table : String) (rows : List RowV)
  | commit
deriving DecidableEq

/-- the batch sizes of all bulk inserts in a trace, in order. -/
def batchSizes : List DBEvent → List Nat
  | [] => []
  | DBEvent.execMany _ rs :: rest => rs.length :: batchSizes rest
  | _ :: rest => batchSizes rest

/-- all rows inserted into a given table by a trace, in order. -/
def rowsInto (tbl : String) : List DBEvent → List RowV
  | [] => []
  | DBEvent.execMany t rs :: rest =>
      if t = tbl then rs ++ rowsInto tbl rest else rowsInto tbl rest
  | _ :: rest => rowsInto tbl rest

/-- number of commit events in a trace. -/
def commitCount (evs : List DBEvent) : Nat := evs.count DBEvent.commit

@[simp] theorem batchSizes_nil : batchSizes [] = [] := rfl
@[simp] theorem batchSizes_exec (sql : String) (rest : List DBEvent) :
    batchSizes (DBEvent.exec sql :: rest) = batchSizes rest := rfl
@[simp] theorem batchSizes_execMany (t : String) (rs : List RowV) (rest : List DBEvent) :
    batchSizes (DBEvent.execMany t rs :: rest) = rs.length :: batchSizes rest := rfl
@[simp] theorem batchSizes_commit (rest : List DBEvent) :
    batchSizes (DBEvent.commit :: rest) = batchSizes rest := rfl

theorem batchSizes_append (l₁ l₂ : List DBEvent) :
    batchSizes (l₁ ++ l₂) = batchSizes l₁ ++ batchSizes l₂ := by
  induction l₁ with
  | nil => rfl
  | cons e rest ih => cases e <;> simp [batchSizes, ih]

@[simp] theorem rowsInto_nil (tbl : String) : rowsInto tbl [] = [] := rfl
@[simp] theorem rowsInto_exec (tbl sql : String) (rest : List DBEvent) :
    rowsInto tbl (DBEvent.exec sql :: rest) = rowsInto tbl rest := rfl
@[simp] theorem rowsInto_execMany (tbl t : String) (rs : List RowV) (rest : List DBEvent) :
    rowsInto tbl (DBEvent.execMany t rs :: rest) =
      if t = tbl then rs ++ rowsInto tbl rest else rowsInto tbl rest := rfl
@[simp] theorem rowsInto_commit (tbl : String) (rest : List DBEvent) :
    rowsInto tbl (DBEvent.commit :: rest) = rowsInto tbl rest := rfl

theorem rowsInto_append (tbl : String) (l₁ l₂ : List DBEvent) :
    rowsInto tbl (l₁ ++ l₂) = rowsInto tbl l₁ ++ rowsInto tbl l₂ := by
  induction l₁ with
  | nil => rfl
  | cons e rest ih =>
      cases e with
      | exec sql => simp [ih]
      | execMany t rs =>
          by_cases h : t = tbl <;> simp [h, ih]
      | commit => simp [ih]

/-- build one row per loop index, as in `for i in range(lo, lo+len)`. -/
def rowsRange (lo len : Nat) (mk : Nat → M RowV) : M (List RowV) :=
  match len with
  | 0 => pure []
  | Nat.succ k => do
      let r ← mk lo
      let rest ← rowsRange (lo + 1) k mk
      pure (r :: rest)

/-- build a group of rows (one or more) per loop index. -/
def rowsRangeG (lo len : Nat) (mk : Nat → M (List RowV)) : M (List RowV) :=
  match len with
  | 0 => pure []
  | Nat.succ k => do
      let g ← mk lo
      let rest ← rowsRangeG (lo + 1) k mk
      pure (g ++ rest)

/-- worker for `chunkedBatches`, structurally recursive on a fuel that is
at least the number of remaining indices (each chunk consumes at least
one index, so the fuel never runs out when called with fuel = n). -/
def chunkedBatchesAux (mk : Nat → M RowV) : Nat → Nat → Nat → M (List (List RowV))
  | 0, _, _ => pure []
  | Nat.succ f, lo, n =>
    if n = 0 then pure []
    else
      let t := if n ≤ 1000 then n else 1000
      do
        let b ← rowsRange lo t mk
        let bs ← chunkedBatchesAux mk f (lo + t) (n - t)
        pure (b :: bs)

/-- chunk `n` indices into consecutive slices of 1000 and build the rows of
each slice, mirroring `for batch_start in range(0, num_rows, 1000)`. -/
def chunkedBatches (lo n : Nat) (mk : Nat → M RowV) : M (List (List RowV)) :=
  chunkedBatchesAux mk n lo n

/-- worker for `chunkedBatchesG` (same fuel discipline). -/
def chunkedBatchesGAux (mk : Nat → M (List RowV)) : Nat → Nat → Nat → M (List (List RowV))
  | 0, _, _ => pure []
  | Nat.succ f, lo, n =>
    if n = 0 then pure []
    else
      let t := if n ≤ 1000 then n else 1000
      do
        let b ← rowsRangeG lo t mk
        let bs ← chunkedBatchesGAux mk f (lo + t) (n - t)
        pure (b :: bs)

/-- chunked batching for generators that may emit a per-index group. -/
def chunkedBatchesG (lo n : Nat) (mk : Nat → M (List RowV)) : M (List (List RowV)) :=
  chunkedBatchesGAux mk n lo n

/-- the events of a chunked bulk load into one table. -/
def chunkedEvents (tbl : String) (n : Nat) (mk : Nat → M RowV) : M (List DBEvent) := do
  let bs ← chunkedBatches 0 n mk
  pure (bs.map (DBEvent.execMany tbl))

/-- the events of a chunked bulk load with per-index row groups. -/
def chunkedEventsG (tbl : String) (n : Nat) (mk : Nat → M (List RowV)) : M (List DBEvent) := do
  let bs ← chunkedBatchesG 0 n mk
  pure (bs.map (DBEvent.execMany tbl))

/-- accumulate row groups into a buffer, emitting a batch whenever the
buffer has reached 1000 rows, and flushing any nonempty remainder at the
end (the `if len(rows) >= batch_size` / final `if rows` pattern). -/
def bufferedBatches : List (List RowV) → List RowV → List (List RowV)
  | [], buf => if buf.isEmpty then [] else [buf]
  | g :: gs, buf =>
      let buf2 := buf ++ g
      if 1000 ≤ buf2.length then buf2 :: bufferedBatches gs []
      else bufferedBatches gs buf2

/-! ## The fifteen generators -/

/-- problem 1, one loop index: the row and, with 10% probability, an exact
duplicate appended right after it. -/
def p01RowGroup (i : Nat) : M (List RowV) := do
  let fn ← fakeStr
  let ln ← fakeStr
  let em ← fakeStr
  let ca ← fakeDateBetween (-730) 0
  let row : RowV := [Val.i ((i : Int) + 1), Val.s fn, Val.s ln, Val.s em, Val.dt ca]
  let c ← drawFloat
  if c < mkRat 1 10 then pure [row, row] else pure [row]

/-- problem_01_no_primary_key. -/
def problem_01 (pfx : String) (n : Nat) : M (List DBEvent) := do
  let evs ← chunkedEventsG "customers_no_pk" n p01RowGroup
  pure (DBEvent.exec ("CREATE TABLE " ++ pfx ++ "customers_no_pk (customer_id INTEGER, first_name VARCHAR(100), last_name VARCHAR(100), email VARCHAR(255), created_at TIMESTAMP)")
    :: evs ++ [DBEvent.commit])

/-- one seeded product row of problem 2: (product_name, price). -/
def p02ProductRow (_i : Nat) : M RowV := do
  let nm ← fakeStr
  let pr ← uniform 10 500
  pure [Val.s nm, Val.q (round2 pr)]

/-- one order row of problem 2: 30% orphan customer ids, 20% orphan
product ids. -/
def p02OrderRow (_i : Nat) : M RowV := do
  let c1 ← drawFloat
  let cid ← if c1 < mkRat 3 10 then randint 900000 999999 else randint 1 10000
  let c2 ← drawFloat
  let pid ← if c2 < mkRat 1 5 then randint 500 999 else randint 1 100
  let qty ← randint 1 10
  let od ← fakeDateBetween (-365) 0
  pure [Val.i cid, Val.i pid, Val.i qty, Val.dt od]

/-- problem_02_missing_foreign_keys. -/
def problem_02 (pfx ai : String) (n : Nat) : M (List DBEvent) := do
  let prows ← rowsRange 0 100 p02ProductRow
  let oevs ← chunkedEvents "orders_no_fk" n p02OrderRow
  pure ([DBEvent.exec ("CREATE TABLE " ++ pfx ++ "products (product_id " ++ ai ++ " PRIMARY KEY, product_name VARCHAR(200), price DECIMAL(10,2))"),
         DBEvent.execMany "products" prows,
         DBEvent.exec ("CREATE TABLE " ++ pfx ++ "orders_no_fk (order_id " ++ ai ++ " PRIMARY KEY, customer_id INTEGER, product_id INTEGER, quantity INTEGER, order_date TIMESTAMP)")]
    ++ oevs ++ [DBEvent.commit])

/-- one row of problem 3: numbers, dates and booleans rendered as text in
inconsistent formats (all four amount drafts are drawn before choosing). -/
def p03Row (i : Nat) : M RowV := do
  let a1 ← uniform 10 1000
  let a2 ← uniform 10 1000
  let a3 ← uniform 10 1000
  let a4 ← uniform 10 1000
  let dv ← fakeDateBetween (-730) 0
  let amount ← choose [fmtF2 a1, "$" ++ fmtF2 a2, fmtF4 a3, toString ⌊a4⌋] ""
  let dtx ← choose [strfdate "%Y-%m-%d" dv, strfdate "%m/%d/%Y" dv,
      strfdate "%d-%m-%Y" dv, strfdate "%B %d, %Y" dv, strfdate "%Y%m%d" dv] ""
  let qty ← randint 1 100
  let bl ← choose ["true", "false", "True", "False", "1", "0", "yes", "no"] ""
  let age ← randint 18 80
  pure [Val.s (toString (i + 1)), Val.s amount, Val.s dtx,
        Val.s (toString qty), Val.s bl, Val.s (toString age)]

/-- problem_03_wrong_data_types. -/
def problem_03 (pfx : String) (n : Nat) : M (List DBEvent) := do
  let evs ← chunkedEvents "transactions_bad_types" n p03Row
  pure (DBEvent.exec ("CREATE TABLE " ++ pfx ++ "transactions_bad_types (transaction_id VARCHAR(50), amount VARCHAR(50), transaction_date VARCHAR(50), quantity VARCHAR(20), is_refund VARCHAR(10), customer_age VARCHAR(10))")
    :: evs ++ [DBEvent.commit])

/-- a value kept with probability 1 - p and NULLed otherwise; the
condition random.random() > p is drawn before the kept value. -/
def maybeVal (p : ℚ) (mk : M Val) : M Val := do
  let c ← drawFloat
  if p < c then mk else pure Val.null

/-- one row of problem 4: each column independently NULLed. -/
def p04Row (_i : Nat) : M RowV := do
  let fn ← maybeVal (mkRat 1 10) (do let v ← fakeStr; pure (Val.s v))
  let ln ← maybeVal (mkRat 1 10) (do let v ← fakeStr; pure (Val.s v))
  let em ← maybeVal (mkRat 15 100) (do let v ← fakeStr; pure (Val.s v))
  let dep ← maybeVal (mkRat 1 5) (do let v ← fakeStr; pure (Val.s (v.take 100)))
  let sal ← maybeVal (mkRat 1 4) (do let v ← uniform 30000 150000; pure (Val.q (round2 v)))
  let hd ← maybeVal (mkRat 1 10) (do let v ← fakeDateBetween (-3650) 0; pure (Val.dt v))
  let mid ← maybeVal (mkRat 3 10) (do let v ← randint 1 100; pure (Val.i v))
  let act ← maybeVal (mkRat 1 5) (do let v ← choose [true, false] true; pure (Val.b v))
  pure [fn, ln, em, dep, sal, hd, mid, act]

/-- problem_04_missing_not_null. -/
def problem_04 (pfx ai bt : String) (n : Nat) : M (List DBEvent) := do
  let evs ← chunkedEvents "employees_nulls" n p04Row
  pure (DBEvent.exec ("CREATE TABLE " ++ pfx ++ "employees_nulls (employee_id " ++ ai ++ " PRIMARY KEY, first_name VARCHAR(100), last_name VARCHAR(100), email VARCHAR(255), department VARCHAR(100), salary DECIMAL(10,2), hire_date DATE, manager_id INTEGER, is_active " ++ bt ++ ")")
    :: evs ++ [DBEvent.commit])

/-- one logical user of problem 5 (the base set). -/
structure User5 where
  uid : Nat
  un : String
  em : String
  ph : String
  ca : Int
deriving DecidableEq

/-- the inserted tuple of a problem-5 user. -/
def User5.row (u : User5) : RowV :=
  [Val.i (u.uid : Int), Val.s u.un, Val.s u.em, Val.s u.ph, Val.dt u.ca]

/-- build one base user (user_id i+1, faker username/email/phone and a
creation timestamp). -/
def mkUser (i : Nat) : M User5 := do
  let un ← fakeStr
  let em ← fakeStr
  let ph ← fakeStr
  let ca ← fakeDateBetween (-730) 0
  pure ⟨i + 1, un, em, ph, ca⟩

/-- the base users with ids lo+1 .. lo+len. -/
def usersM (lo len : Nat) : M (List User5) :=
  match len with
  | 0 => pure []
  | Nat.succ k => do
      let u ← mkUser lo
      let rest ← usersM (lo + 1) k
      pure (u :: rest)

/-- the rows emitted for one base user: the original, plus 1-3 exact
duplicates for about half of the users. -/
def groupOf (u : User5) : M (List RowV) := do
  let c ← drawFloat
  if c < mkRat 1 2 then
    let d ← randint 1 3
    pure (List.replicate (1 + d.toNat) u.row)
  else
    pure [u.row]

/-- the row groups of all base users, in order. -/
def groupsFor : List User5 → M (List (List RowV))
  | [] => pure []
  | u :: us => do
      let g ← groupOf u
      let rest ← groupsFor us
      pure (g :: rest)

/-- problem_05_duplicate_records. -/
def problem_05 (pfx ai : String) (n : Nat) : M (List DBEvent) := do
  let us ← usersM 0 (n / 3)
  let gs ← groupsFor us
  let batches := bufferedBatches gs []
  pure (DBEvent.exec ("CREATE TABLE " ++ pfx ++ "users_duplicates (row_id " ++ ai ++ " PRIMARY KEY, user_id INTEGER, username VARCHAR(100), email VARCHAR(255), phone VARCHAR(50), created_at TIMESTAMP)")
    :: batches.map (DBEvent.execMany "users_duplicates") ++ [DBEvent.commit])

/-- the eleven textual date formats of problem 6. -/
def dateFormats6 : List String :=
  ["%Y-%m-%d", "%m/%d/%Y", "%d/%m/%Y", "%Y/%m/%d", "%d-%m-%Y", "%m-%d-%Y",
   "%B %d, %Y", "%b %d, %Y", "%d %B %Y", "%Y%m%d", "%d.%m.%Y"]

/-- one row of problem 6: start/end/deadline dates each rendered in a
format drawn independently. -/
def p06Row (i : Nat) : M RowV := do
  let start ← fakeDateBetween (-365) 365
  let d1 ← randint 1 30
  let d2 ← randint 7 60
  let nm ← fakeStr
  let f1 ← choose dateFormats6 ""
  let f2 ← choose dateFormats6 ""
  let f3 ← choose dateFormats6 ""
  pure [Val.i ((i : Int) + 1), Val.s nm, Val.s (strfdate f1 start),
        Val.s (strfdate f2 (start + d1)), Val.s (strfdate f3 (start - d2))]

/-- problem_06_inconsistent_dates. -/
def problem_06 (pfx : String) (n : Nat) : M (List DBEvent) := do
  let evs ← chunkedEvents "events_bad_dates" n p06Row
  pure (DBEvent.exec ("CREATE TABLE " ++ pfx ++ "events_bad_dates (event_id INTEGER, event_name VARCHAR(200), start_date VARCHAR(50), end_date VARCHAR(50), registration_deadline VARCHAR(50))")
    :: evs ++ [DBEvent.commit])

/-- helper for str.title: capitalize letters that follow a non-letter. -/
def titleCaseAux : Bool → List Char → List Char
  | _, [] => []
  | prevAlpha, c :: cs =>
      (if c.isAlpha ∧ ¬prevAlpha then c.toUpper else c.toLower) ::
        titleCaseAux c.isAlpha cs

/-- str.title. -/
def titleCase (s : String) : String := ⟨titleCaseAux false s.data⟩

/-- per-character random upper/lower casing (the "mixed" branch). -/
def mixedChars : List Char → M (List Char)
  | [] => pure []
  | c :: cs => do
      let f ← drawFloat
      let rest ← mixedChars cs
      pure ((if mkRat 1 2 < f then c.toUpper else c.toLower) :: rest)

/-- randomize_case from problem 7. -/
def randomizeCase (s : String) : M String := do
  let ct ← choose ["lower", "upper", "title", "mixed", "original"] ""
  if ct = "lower" then pure (s.map Char.toLower)
  else if ct = "upper" then pure (s.map Char.toUpper)
  else if ct = "title" then pure (titleCase s)
  else if ct = "mixed" then do
    let cs ← mixedChars s.data
    pure ⟨cs⟩
  else pure s

/-- one row of problem 7. -/
def p07Row (i : Nat) : M RowV := do
  let fn ← fakeStr
  let fn2 ← randomizeCase fn
  let ln ← fakeStr
  let ln2 ← randomizeCase ln
  let em ← fakeStr
  let em2 ← randomizeCase em
  let co ← fakeStr
  let co2 ← randomizeCase co
  let cy ← fakeStr
  let cy2 ← randomizeCase cy
  pure [Val.i ((i : Int) + 1), Val.s fn2, Val.s ln2, Val.s em2, Val.s co2, Val.s cy2]

/-- problem_07_inconsistent_casing. -/
def problem_07 (pfx : String) (n : Nat) : M (List DBEvent) := do
  let evs ← chunkedEvents "contacts_bad_casing" n p07Row
  pure (DBEvent.exec ("CREATE TABLE " ++ pfx ++ "contacts_bad_casing (contact_id INTEGER, first_name VARCHAR(100), last_name VARCHAR(100), email VARCHAR(255), company VARCHAR(200), country VARCHAR(100))")
    :: evs ++ [DBEvent.commit])

/-- the fixed whitespace tokens of problem 8. -/
def wsTokens : List String := [" ", "  ", "   ", "\t", " \t", "\n", " \n "]

/-- add_random_whitespace: 40% chance of a leading token and,
independently, 40% chance of a trailing token. -/
def addRandomWhitespace (s : String) : M String := do
  let c1 ← drawFloat
  let r1 ← if c1 < mkRat 2 5 then do
      let w ← choose wsTokens ""
      pure (w ++ s)
    else pure s
  let c2 ← drawFloat
  if c2 < mkRat 2 5 then do
    let w ← choose wsTokens ""
    pure (r1 ++ w)
  else pure r1

/-- one row of problem 8. -/
def p08Row (i : Nat) : M RowV := do
  let sku ← addRandomWhitespace ("SKU-" ++ padZeros 6 (toString (i + 1)))
  let pn ← fakeStr
  let pn2 ← addRandomWhitespace (pn.take 200)
  let cat ← choose ["Electronics", "Clothing", "Food", "Furniture", "Tools"] ""
  let cat2 ← addRandomWhitespace cat
  let sup ← fakeStr
  let sup2 ← addRandomWhitespace (sup.take 200)
  let w1 ← randint 1 10
  let w2 ← randint 1 50
  let w3 ← randint 1 100
  let loc ← addRandomWhitespace ("W" ++ toString w1 ++ "-R" ++ toString w2 ++ "-S" ++ toString w3)
  pure [Val.s sku, Val.s pn2, Val.s cat2, Val.s sup2, Val.s loc]

/-- problem_08_whitespace_issues. -/
def problem_08 (pfx : String) (n : Nat) : M (List DBEvent) := do
  let evs ← chunkedEvents "inventory_whitespace" n p08Row
  pure (DBEvent.exec ("CREATE TABLE " ++ pfx ++ "inventory_whitespace (sku VARCHAR(100), product_name VARCHAR(200), category VARCHAR(100), supplier VARCHAR(200), warehouse_location VARCHAR(50))")
    :: evs ++ [DBEvent.commit])

/-- generate_bad_email: one of the 14 malformed patterns, chosen
uniformly; only the chosen pattern draws its faker values. -/
def generateBadEmail : M String := do
  let v ← drawNat
  match v % 14 with
  | 0 => fakeStr
  | 1 => do let u ← fakeStr; pure (u ++ "@")
  | 2 => do let d ← fakeStr; pure ("@" ++ d)
  | 3 => do let u ← fakeStr; let d ← fakeStr; pure (u ++ "@@" ++ d)
  | 4 => do let u ← fakeStr; let d ← fakeStr; pure (u ++ " @" ++ d)
  | 5 => do let u ← fakeStr; let w ← fakeStr; pure (u ++ "@" ++ w)
  | 6 => do let u ← fakeStr; let d ← fakeStr; pure (u ++ "@." ++ d)
  | 7 => do let u ← fakeStr; let d ← fakeStr; pure ("." ++ u ++ "@" ++ d)
  | 8 => do let u ← fakeStr; let d ← fakeStr; pure (u ++ "@" ++ d ++ ".")
  | 9 => pure "N/A"
  | 10 => pure "none"
  | 11 => pure "-"
  | 12 => pure ""
  | _ => fakeStr

/-- one row of problem 9: 30% malformed emails. -/
def p09Row (i : Nat) : M RowV := do
  let c ← drawFloat
  let em ← if c < mkRat 3 10 then generateBadEmail else fakeStr
  let nm ← fakeStr
  let ts ← fakeDateBetween (-730) 0
  pure [Val.i ((i : Int) + 1), Val.s nm, Val.s em, Val.dt ts]

/-- problem_09_invalid_emails. -/
def problem_09 (pfx : String) (n : Nat) : M (List DBEvent) := do
  let evs ← chunkedEvents "subscribers_bad_emails" n p09Row
  pure (DBEvent.exec ("CREATE TABLE " ++ pfx ++ "subscribers_bad_emails (subscriber_id INTEGER, name VARCHAR(200), email VARCHAR(255), subscribed_at TIMESTAMP)")
    :: evs ++ [DBEvent.commit])

/-- round(x, 1) on the rational model of a Python float. -/
def round1 (q : ℚ) : ℚ := (⌊q * 10 + mkRat 1 2⌋ : ℚ) / 10

/-- the six in-range / corrupted field bundles of problem 10:
(price, quantity, discount, date, age, rating). -/
def p10Fields : M (ℚ × Int × ℚ × Int × Int × ℚ) := do
  let c ← drawFloat
  if c < mkRat 1 5 then do
    let bad ← choose ["negative_price", "negative_quantity", "huge_discount",
        "future_date", "impossible_age", "bad_rating"] ""
    if bad = "negative_price" then do
      let p ← uniform 1 100
      let q ← randint 1 10
      let d ← uniform 0 30
      let dt ← fakeDateBetween (-365) 0
      let a ← randint 18 80
      let r ← uniform 1 5
      pure (-(round2 p), q, round2 d, dt, a, round1 r)
    else if bad = "negative_quantity" then do
      let p ← uniform 10 500
      let q ← randint 1 100
      let d ← uniform 0 30
      let dt ← fakeDateBetween (-365) 0
      let a ← randint 18 80
      let r ← uniform 1 5
      pure (round2 p, -q, round2 d, dt, a, round1 r)
    else if bad = "huge_discount" then do
      let p ← uniform 10 500
      let q ← randint 1 10
      let d ← uniform 100 500
      let dt ← fakeDateBetween (-365) 0
      let a ← randint 18 80
      let r ← uniform 1 5
      pure (round2 p, q, round2 d, dt, a, round1 r)
    else if bad = "future_date" then do
      let p ← uniform 10 500
      let q ← randint 1 10
      let d ← uniform 0 30
      let t ← nowM
      let off ← randint 1 365
      let a ← randint 18 80
      let r ← uniform 1 5
      pure (round2 p, q, round2 d, t + off, a, round1 r)
    else if bad = "impossible_age" then do
      let p ← uniform 10 500
      let q ← randint 1 10
      let d ← uniform 0 30
      let dt ← fakeDateBetween (-365) 0
      let a ← choose [(-5 : Int), 0, 150, 999] 0
      let r ← uniform 1 5
      pure (round2 p, q, round2 d, dt, a, round1 r)
    else do
      let p ← uniform 10 500
      let q ← randint 1 10
      let d ← uniform 0 30
      let dt ← fakeDateBetween (-365) 0
      let a ← randint 18 80
      let r ← choose [(-1 : ℚ), 0, 6, 10] 0
      pure (round2 p, q, round2 d, dt, a, r)
  else do
    let p ← uniform 10 500
    let q ← randint 1 10
    let d ← uniform 0 30
    let dt ← fakeDateBetween (-365) 0
    let a ← randint 18 80
    let r ← uniform 1 5
    pure (round2 p, q, round2 d, dt, a, round1 r)

/-- one row of problem 10. -/
def p10Row (i : Nat) : M RowV := do
  let f ← p10Fields
  let nm ← fakeStr
  pure [Val.i ((i : Int) + 1), Val.s (nm.take 200), Val.q f.1, Val.i f.2.1,
        Val.q f.2.2.1, Val.dt f.2.2.2.1, Val.i f.2.2.2.2.1, Val.q f.2.2.2.2.2]

/-- problem_10_out_of_range. -/
def problem_10 (pfx : String) (n : Nat) : M (List DBEvent) := do
  let evs ← chunkedEvents "sales_bad_values" n p10Row
  pure (DBEvent.exec ("CREATE TABLE " ++ pfx ++ "sales_bad_values (sale_id INTEGER, product_name VARCHAR(200), unit_price DECIMAL(10,2), quantity INTEGER, discount_percent DECIMAL(5,2), sale_date DATE, customer_age INTEGER, rating DECIMAL(3,1))")
    :: evs ++ [DBEvent.commit])

/-- the 15-item tag vocabulary of problem 11. -/
def allTags : List String :=
  ["python", "javascript", "sql", "database", "web", "api", "security",
   "cloud", "devops", "testing", "frontend", "backend", "mobile", "ai", "ml"]

/-- the 6-item category vocabulary of problem 11. -/
def allCategories : List String :=
  ["Tutorial", "News", "Opinion", "Review", "Guide", "Reference"]

/-- k random related ids, each uniform in [1, n], rendered as text. -/
def relatedIds (n : Nat) : Nat → M (List String)
  | 0 => pure []
  | Nat.succ k => do
      let v ← randint 1 (n : Int)
      let rest ← relatedIds n k
      pure (toString v :: rest)

/-- one row of problem 11. -/
def p11Row (n : Nat) (i : Nat) : M RowV := do
  let d1 ← randint 1 7
  let tags ← sample "" allTags d1.toNat
  let d2 ← randint 1 3
  let cats ← sample "" allCategories d2.toNat
  let k ← randint 0 5
  let rel ← relatedIds n k.toNat
  let title ← fakeStr
  let author ← fakeStr
  pure [Val.i ((i : Int) + 1), Val.s (title.take 300), Val.s author,
        Val.s (String.intercalate "," tags), Val.s (String.intercalate "," cats),
        Val.s (String.intercalate "," rel)]

/-- problem_11_csv_in_columns. -/
def problem_11 (pfx : String) (n : Nat) : M (List DBEvent) := do
  let evs ← chunkedEvents "articles_csv_tags" n (p11Row n)
  pure (DBEvent.exec ("CREATE TABLE " ++ pfx ++ "articles_csv_tags (article_id INTEGER, title VARCHAR(300), author VARCHAR(200), tags VARCHAR(500), categories VARCHAR(500), related_ids VARCHAR(200))")
    :: evs ++ [DBEvent.commit])

/-- worker for `replaceAll`: structurally recursive on a fuel that is at
least the length of the list (every step consumes at least one
character, so fuel = length always suffices). -/
def replaceAllAux (pat rep : List Char) : Nat → List Char → List Char
  | 0, l => l
  | _, [] => []
  | Nat.succ f, c :: rest =>
      if pat.isPrefixOf (c :: rest) then
        rep ++ replaceAllAux pat rep f (rest.drop (pat.length - 1))
      else
        c :: replaceAllAux pat rep f rest

/-- replace every non-overlapping occurrence of `pat` (nonempty) by `rep`,
left to right (the semantics of str.replace). -/
def replaceAll (pat rep l : List Char) : List Char :=
  replaceAllAux pat rep l.length l

/-- str.replace on strings. -/
def strReplace (s pat rep : String) : String :=
  ⟨replaceAll pat.data rep.data s.data⟩

/-- the fixed list of problematic literals of problem 12, as they appear
in the source file. -/
def specialChars : List String :=
  ["Caf√© r√©sum√© na√Øve",
   "Êó•Êú¨Ë™û„ÉÜ„Çπ„Éà",
   "–¢–µ—Å—Ç –∫–∏—Ä–∏–ª–ª–∏—Ü—ã",
   "ŸÖÿ±ÿ≠ÿ®ÿß ÿ®ÿßŸÑÿπÿßŸÑŸÖ",
   "◊©◊ú◊ï◊ù ◊¢◊ï◊ú◊ù",
   "üéâ Party üéä Time üéà",
   "Line1\nLine2\nLine3",
   "Quote \"test\" here",
   "Tab\there\ttoo",
   "NULL",
   "null",
   "<script>alert(\x27xss\x27)</script>",
   "O\x27Brien\x27s caf√©",
   "50% off ‚Äî limited time!",
   "Price: ‚Ç¨100 or ¬£80",
   "√ëo√±o",
   "\x00 null byte",
   "Êú´Êú´Êú´",
   "Beyonc√©"]

/-- one row of problem 12: 30% rows drawn from the problematic literals,
the rest from the multi-locale faker. -/
def p12Row (i : Nat) : M RowV := do
  let c ← drawFloat
  if c < mkRat 3 10 then do
    let nm ← choose specialChars ""
    let ad ← choose specialChars ""
    let parts ← sample "" specialChars 3
    let notes := String.intercalate " | " parts
    pure [Val.i ((i : Int) + 1), Val.s (nm.take 300), Val.s (ad.take 500),
          Val.s (notes.take 1000)]
  else do
    let nm ← fakeStr
    let ad0 ← fakeStr
    let ad := strReplace ad0 "\n" ", "
    let notes ← fakeStr
    pure [Val.i ((i : Int) + 1), Val.s (nm.take 300), Val.s (ad.take 500),
          Val.s (notes.take 1000)]

/-- problem_12_encoding_issues. -/
def problem_12 (pfx : String) (n : Nat) : M (List DBEvent) := do
  let evs ← chunkedEvents "international_data" n p12Row
  pure (DBEvent.exec ("CREATE TABLE " ++ pfx ++ "international_data (record_id INTEGER, customer_name VARCHAR(300), address VARCHAR(500), notes VARCHAR(1000))")
    :: evs ++ [DBEvent.commit])

/-- one of the 100 pre-generated customers of problem 13. -/
structure Cust13 where
  id : Int
  first : String
  last : String
  email : String
  phone : String
  addr1 : String
  addr2 : String
  city : String
  state : String
  zip : String
  country : String
  created : Int
deriving DecidableEq, Inhabited

/-- one of the 50 pre-generated products of problem 13. -/
structure Prod13 where
  id : Int
  name : String
  descr : String
  cat : String
  subcat : String
  brand : String
  price : ℚ
  cost : ℚ
deriving DecidableEq, Inhabited

/-- build one problem-13 customer record. -/
def mkCust13 (i : Nat) : M Cust13 := do
  let fn ← fakeStr
  let ln ← fakeStr
  let em ← fakeStr
  let ph ← fakeStr
  let a1 ← fakeStr
  let c ← drawFloat
  let a2 ← if mkRat 7 10 < c then fakeStr else pure ""
  let cy ← fakeStr
  let st ← fakeStr
  let zp ← fakeStr
  let cr ← fakeDateBetween (-1095) (-365)
  pure ⟨(i : Int) + 1, fn, ln, em, ph, a1, a2, cy, st, zp, "USA", cr⟩

/-- build one problem-13 product record. -/
def mkProd13 (i : Nat) : M Prod13 := do
  let nm ← fakeStr
  let ds ← fakeStr
  let ct ← choose ["Electronics", "Clothing", "Home", "Sports", "Books"] ""
  let sc ← fakeStr
  let br ← fakeStr
  let pr ← uniform 10 500
  let co ← uniform 5 250
  pure ⟨(i : Int) + 1, nm.take 200, ds, ct, sc, br.take 100, round2 pr, round2 co⟩

/-- a fixed-length list of monadically built records. -/
def buildList {α : Type} (mk : Nat → M α) (lo len : Nat) : M (List α) :=
  match len with
  | 0 => pure []
  | Nat.succ k => do
      let x ← mk lo
      let rest ← buildList mk (lo + 1) k
      pure (x :: rest)

/-- one god-table row: a uniformly chosen customer and product,
denormalized into ~34 columns. -/
def p13Row (cs : List Cust13) (ps : List Prod13) (i : Nat) : M RowV := do
  let cu ← choose cs default
  let pr ← choose ps default
  let qty ← randint 1 5
  let od ← fakeDateBetween (-365) 0
  let oid ← randint 10000 99999
  let st ← choose ["pending", "shipped", "delivered", "returned"] ""
  let sc ← uniform 5 20
  let tr ← fakeStr
  let mth ← choose ["standard", "express", "overnight"] ""
  let ed ← randint 3 14
  let c ← drawFloat
  let ad ← if mkRat 3 10 < c then do
      let d ← randint 3 20
      pure (Val.dt (od + d))
    else pure Val.null
  let car ← choose ["UPS", "FedEx", "USPS", "DHL"] ""
  pure [Val.i ((i : Int) + 1), Val.i cu.id, Val.s cu.first, Val.s cu.last,
        Val.s cu.email, Val.s cu.phone, Val.s cu.addr1, Val.s cu.addr2,
        Val.s cu.city, Val.s cu.state, Val.s cu.zip, Val.s cu.country,
        Val.dt cu.created, Val.i oid, Val.dt od, Val.s st,
        Val.q (round2 (pr.price * (qty : ℚ) * mkRat 11 10)),
        Val.q (round2 sc), Val.q (round2 (pr.price * (qty : ℚ) * mkRat 8 100)),
        Val.i pr.id, Val.s pr.name, Val.s pr.descr, Val.s pr.cat,
        Val.s pr.subcat, Val.s pr.brand, Val.q pr.price, Val.q pr.cost,
        Val.i qty, Val.q (round2 (pr.price * (qty : ℚ))), Val.s car,
        Val.s (tr.take 20), Val.s mth, Val.dt (od + ed), ad]

/-- problem_13_god_table. -/
def problem_13 (pfx : String) (n : Nat) : M (List DBEvent) := do
  let cs ← buildList mkCust13 0 100
  let ps ← buildList mkProd13 0 50
  let rows ← rowsRange 0 n (p13Row cs ps)
  let batches := bufferedBatches (rows.map (fun r => [r])) []
  pure (DBEvent.exec ("CREATE TABLE " ++ pfx ++ "god_table (id INTEGER, customer_id INTEGER, customer_first_name VARCHAR(100), customer_last_name VARCHAR(100), customer_email VARCHAR(255), customer_phone VARCHAR(50), customer_address_line1 VARCHAR(200), customer_address_line2 VARCHAR(200), customer_city VARCHAR(100), customer_state VARCHAR(50), customer_zip VARCHAR(20), customer_country VARCHAR(100), customer_created_at TIMESTAMP, order_id INTEGER, order_date TIMESTAMP, order_status VARCHAR(50), order_total DECIMAL(10,2), order_shipping_cost DECIMAL(10,2), order_tax DECIMAL(10,2), product_id INTEGER, product_name VARCHAR(200), product_description VARCHAR(1000), product_category VARCHAR(100), product_subcategory VARCHAR(100), product_brand VARCHAR(100), product_unit_price DECIMAL(10,2), product_cost DECIMAL(10,2), quantity INTEGER, line_total DECIMAL(10,2), shipping_carrier VARCHAR(100), shipping_tracking VARCHAR(100), shipping_method VARCHAR(50), estimated_delivery DATE, actual_delivery DATE)")
    :: batches.map (DBEvent.execMany "god_table") ++ [DBEvent.commit])

/-- one audit-log row of problem 14. -/
def p14Row (_i : Nat) : M RowV := do
  let uid ← randint 1 10000
  let act ← choose ["VIEW", "CREATE", "UPDATE", "DELETE", "LOGIN", "LOGOUT", "EXPORT"] ""
  let res ← choose ["user", "order", "product", "report", "setting", "document"] ""
  let rid ← randint 1 100000
  let ip ← fakeStr
  let ua ← fakeStr
  let ts ← fakeDateBetween (-90) 0
  let sid ← fakeStr
  let st ← choose ["success", "failure", "pending", "timeout"] ""
  pure [Val.i uid, Val.s act, Val.s res, Val.i rid, Val.s ip,
        Val.s (ua.take 500), Val.dt ts, Val.s sid, Val.s st]

/-- problem_14_missing_indexes. -/
def problem_14 (pfx ai : String) (n : Nat) : M (List DBEvent) := do
  let evs ← chunkedEvents "audit_log_no_index" n p14Row
  pure (DBEvent.exec ("CREATE TABLE " ++ pfx ++ "audit_log_no_index (log_id " ++ ai ++ " PRIMARY KEY, user_id INTEGER, action_type VARCHAR(50), resource_type VARCHAR(50), resource_id INTEGER, ip_address VARCHAR(45), user_agent VARCHAR(500), created_at TIMESTAMP, session_id VARCHAR(100), status VARCHAR(20))")
    :: evs ++ [DBEvent.commit])

/-- one seeded account of problem 15: integer id i+1, name, balance. -/
def p15AccountRow (i : Nat) : M RowV := do
  let nm ← fakeStr
  let bal ← uniform 100 100000
  pure [Val.i ((i : Int) + 1), Val.s (nm.take 200), Val.q (round2 bal)]

/-- one transaction row of problem 15: the account id stored as text,
zero-padded to 10 digits with probability 40%. -/
def p15TxnRow (i : Nat) : M RowV := do
  let aid ← randint 1 1000
  let c ← drawFloat
  let aidStr := if c < mkRat 2 5 then padZeros 10 (toString aid.toNat) else toString aid.toNat
  let amt ← uniform (-1000) 1000
  let dt ← fakeDateBetween (-365) 0
  pure [Val.i ((i : Int) + 1), Val.s aidStr, Val.q (round2 amt), Val.dt dt]

/-- problem_15_type_coercion. -/
def problem_15 (pfx : String) (n : Nat) : M (List DBEvent) := do
  let arows ← rowsRange 0 1000 p15AccountRow
  let tevs ← chunkedEvents "transactions_str_id" n p15TxnRow
  pure ([DBEvent.exec ("CREATE TABLE " ++ pfx ++ "accounts_int_id (account_id INTEGER PRIMARY KEY, account_name VARCHAR(200), balance DECIMAL(15,2))"),
         DBEvent.exec ("CREATE TABLE " ++ pfx ++ "transactions_str_id (txn_id INTEGER, account_id VARCHAR(20), amount DECIMAL(10,2), txn_date DATE)"),
         DBEvent.execMany "accounts_int_id" arows]
    ++ tevs ++ [DBEvent.commit])

/-! ## Backend adapters, scale controller, setup trace -/

/-- the three supported backends. -/
inductive DBType where
  | postgres
  | mysql
  | redshift
deriving DecidableEq

def SCHEMA_NAME : String := "bad_data_workshop"

/-- get_table_prefix of each adapter. -/
def tablePfxOf : DBType → String
  | DBType.postgres => SCHEMA_NAME ++ "."
  | DBType.mysql => "bdw_"
  | DBType.redshift => SCHEMA_NAME ++ "."

/-- get_auto_increment_syntax of each adapter. -/
def autoIncOf : DBType → String
  | DBType.postgres => "SERIAL"
  | DBType.mysql => "INT AUTO_INCREMENT"
  | DBType.redshift => "INTEGER IDENTITY(1,1)"

/-- get_boolean_type of each adapter. -/
def boolTypeOf : DBType → String
  | DBType.postgres => "BOOLEAN"
  | DBType.mysql => "TINYINT(1)"
  | DBType.redshift => "BOOLEAN"

/-- scales.get(scale, 10_000): the base row count of a scale token. -/
def scaleBase (scale : String) : Nat :=
  if scale = "tiny" then 100
  else if scale = "small" then 10000
  else if scale = "medium" then 100000
  else if scale = "large" then 500000
  else if scale = "xlarge" then 1000000
  else 10000

/-- identifiers of the fifteen generators, in declaration order. -/
inductive PId where
  | p01 | p02 | p03 | p04 | p05 | p06 | p07 | p08
  | p09 | p10 | p11 | p12 | p13 | p14 | p15
deriving DecidableEq

/-- the `problems` list of setup_workshop: display name, generator, row
count (base everywhere except 13: 2x, 14: 5x). -/
def problemsList (base : Nat) : List (String × PId × Nat) :=
  [("Problem 1: No Primary Keys", PId.p01, base),
   ("Problem 2: Missing Foreign Keys", PId.p02, base),
   ("Problem 3: Wrong Data Types", PId.p03, base),
   ("Problem 4: Missing NOT NULL", PId.p04, base),
   ("Problem 5: Duplicate Records", PId.p05, base),
   ("Problem 6: Inconsistent Dates", PId.p06, base),
   ("Problem 7: Inconsistent Casing", PId.p07, base),
   ("Problem 8: Whitespace Issues", PId.p08, base),
   ("Problem 9: Invalid Emails", PId.p09, base),
   ("Problem 10: Out of Range Values", PId.p10, base),
   ("Problem 11: CSV in Columns", PId.p11, base),
   ("Problem 12: Encoding Issues", PId.p12, base),
   ("Problem 13: God Table", PId.p13, base * 2),
   ("Problem 14: Missing Indexes", PId.p14, base * 5),
   ("Problem 15: Type Coercion", PId.p15, base)]

/-- dispatch a generator id to its generator. -/
def runProblem (pfx ai bt : String) : PId → Nat → M (List DBEvent)
  | PId.p01, n => problem_01 pfx n
  | PId.p02, n => problem_02 pfx ai n
  | PId.p03, n => problem_03 pfx n
  | PId.p04, n => problem_04 pfx ai bt n
  | PId.p05, n => problem_05 pfx ai n
  | PId.p06, n => problem_06 pfx n
  | PId.p07, n => problem_07 pfx n
  | PId.p08, n => problem_08 pfx n
  | PId.p09, n => problem_09 pfx n
  | PId.p10, n => problem_10 pfx n
  | PId.p11, n => problem_11 pfx n
  | PId.p12, n => problem_12 pfx n
  | PId.p13, n => problem_13 pfx n
  | PId.p14, n => problem_14 pfx ai n
  | PId.p15, n => problem_15 pfx n

/-- run the scheduled generators in order, concatenating their traces. -/
def runAllProblems (pfx ai bt : String) : List (String × PId × Nat) → M (List DBEvent)
  | [] => pure []
  | (_, pid, n) :: rest => do
      let evs ← runProblem pfx ai bt pid n
      let more ← runAllProblems pfx ai bt rest
      pure (evs ++ more)

/-- all counters at zero: the state right after seeding. -/
def cnt0 : Cnt := ⟨0, 0, 0⟩

/-- the full generated dataset of one `setup` run, as the ordered list of
database events of all fifteen generators. -/
def setupTrace (dbt : DBType) (scale : String) (ctx : Ctx) : List DBEvent :=
  (runAllProblems (tablePfxOf dbt) (autoIncOf dbt) (boolTypeOf dbt)
    (problemsList (scaleBase scale)) ctx cnt0).1

/-! ## Connection lifecycle (setup/teardown try-finally, close) -/

/-- the two driver handles of a DatabaseAdapter; a handle is present only
after the corresponding step of connect() succeeded. -/
structure AdapterH where
  connection : Option Unit
  cursor : Option Unit
deriving DecidableEq

/-- DatabaseAdapter.close: release the cursor if present, then the
connection if present; on a missing handle nothing is done. -/
def closeOps (a : AdapterH) : List String :=
  (if a.cursor.isSome then ["cursor.close"] else []) ++
    (if a.connection.isSome then ["connection.close"] else [])

/-- observable lifecycle steps of one setup/teardown run. -/
inductive LifeEvent where
  | connectAttempt
  | bodyRun
  | closeCall (ops : List String)
deriving DecidableEq

/-- the try/finally shape shared by setup_workshop and teardown_workshop:
attempt connect; if it succeeds run the body (schema + generators for
setup, drop_schema for teardown); in all cases, including an error raised
by connect or by the body, call close() on the way out and propagate the
error. -/
def runGuarded (connectR : Except String AdapterH)
    (bodyR : AdapterH → Except String Unit) :
    Except String Unit × List LifeEvent :=
  match connectR with
  | Except.error e =>
      (Except.error e,
       [LifeEvent.connectAttempt, LifeEvent.closeCall (closeOps ⟨Option.none, Option.none⟩)])
  | Except.ok a =>
      match bodyR a with
      | Except.error e =>
          (Except.error e,
           [LifeEvent.connectAttempt, LifeEvent.bodyRun, LifeEvent.closeCall (closeOps a)])
      | Except.ok _ =>
          (Except.ok (),
           [LifeEvent.connectAttempt, LifeEvent.bodyRun, LifeEvent.closeCall (closeOps a)])

/-! ## Diagnostic catalog -/

/-- one diagnostic entry: display name, description, query template. -/
structure DiagEntry where
  name : String
  descr : String
  query : String
deriving DecidableEq

/-- DIAGNOSTIC_QUERIES: the static catalog, problem id to entry, with the
query texts of the source (newlines flattened into escape sequences). -/
def DIAGNOSTIC_QUERIES : List (String × DiagEntry) :=
  [("problem_01",
    ⟨"Tables without Primary Keys",
     "Find duplicate rows that can\x27t be uniquely identified",
     "\n-- Find exact duplicate rows\nSELECT customer_id, first_name, last_name, email, COUNT(*) as count\nFROM \x7bprefix\x7dcustomers_no_pk\nGROUP BY customer_id, first_name, last_name, email\nHAVING COUNT(*) > 1\nORDER BY count DESC\nLIMIT 20;\n"⟩),
   ("problem_02",
    ⟨"Orphaned Foreign Key Records",
     "Find orders referencing non-existent customers/products",
     "\n-- Find orders with non-existent customers\nSELECT COUNT(*) as orphaned_customer_orders\nFROM \x7bprefix\x7dorders_no_fk o\nLEFT JOIN \x7bprefix\x7dcustomers_no_pk c ON o.customer_id = c.customer_id\nWHERE c.customer_id IS NULL;\n\n-- Find orders with non-existent products\nSELECT COUNT(*) as orphaned_product_orders\nFROM \x7bprefix\x7dorders_no_fk o\nLEFT JOIN \x7bprefix\x7dproducts p ON o.product_id = p.product_id\nWHERE p.product_id IS NULL;\n"⟩),
   ("problem_03",
    ⟨"Wrong Data Types",
     "Identify strings that should be dates/numbers",
     "\n-- Show the variety of date formats stored as strings\nSELECT transaction_date, COUNT(*) as count\nFROM \x7bprefix\x7dtransactions_bad_types\nGROUP BY transaction_date\nORDER BY count DESC\nLIMIT 20;\n\n-- Show amount formats\nSELECT amount, COUNT(*) as count\nFROM \x7bprefix\x7dtransactions_bad_types\nGROUP BY amount\nORDER BY count DESC\nLIMIT 20;\n"⟩),
   ("problem_04",
    ⟨"NULL Values in Critical Fields",
     "Count NULLs in fields that shouldn\x27t be NULL",
     "\nSELECT\n    COUNT(*) as total_rows,\n    SUM(CASE WHEN first_name IS NULL THEN 1 ELSE 0 END) as null_first_name,\n    SUM(CASE WHEN last_name IS NULL THEN 1 ELSE 0 END) as null_last_name,\n    SUM(CASE WHEN email IS NULL THEN 1 ELSE 0 END) as null_email,\n    SUM(CASE WHEN salary IS NULL THEN 1 ELSE 0 END) as null_salary,\n    SUM(CASE WHEN hire_date IS NULL THEN 1 ELSE 0 END) as null_hire_date\nFROM \x7bprefix\x7demployees_nulls;\n"⟩),
   ("problem_05",
    ⟨"Duplicate Records",
     "Find users that appear multiple times",
     "\nSELECT user_id, username, email, COUNT(*) as occurrences\nFROM \x7bprefix\x7dusers_duplicates\nGROUP BY user_id, username, email\nHAVING COUNT(*) > 1\nORDER BY occurrences DESC\nLIMIT 20;\n"⟩),
   ("problem_06",
    ⟨"Inconsistent Date Formats",
     "Show the chaos of date format variations",
     "\nSELECT start_date, COUNT(*) as count\nFROM \x7bprefix\x7devents_bad_dates\nGROUP BY start_date\nORDER BY count DESC\nLIMIT 30;\n"⟩),
   ("problem_07",
    ⟨"Inconsistent String Casing",
     "Find same value with different casing",
     "\nSELECT LOWER(country) as normalized_country,\n       COUNT(DISTINCT country) as case_variations,\n       COUNT(*) as total_records\nFROM \x7bprefix\x7dcontacts_bad_casing\nGROUP BY LOWER(country)\nHAVING COUNT(DISTINCT country) > 1\nORDER BY case_variations DESC;\n"⟩),
   ("problem_08",
    ⟨"Whitespace Issues",
     "Find values with leading/trailing whitespace",
     "\nSELECT sku,\n       LENGTH(sku) as length_with_whitespace,\n       LENGTH(TRIM(sku)) as length_trimmed,\n       LENGTH(sku) - LENGTH(TRIM(sku)) as whitespace_chars\nFROM \x7bprefix\x7dinventory_whitespace\nWHERE LENGTH(sku) != LENGTH(TRIM(sku))\nLIMIT 20;\n"⟩),
   ("problem_09",
    ⟨"Invalid Email Formats",
     "Find emails that don\x27t match basic patterns",
     "\n-- Emails without @ symbol\nSELECT email, COUNT(*) as count\nFROM \x7bprefix\x7dsubscribers_bad_emails\nWHERE email NOT LIKE \x27%@%\x27 OR email = \x27\x27 OR email IS NULL\nGROUP BY email\nORDER BY count DESC\nLIMIT 20;\n"⟩),
   ("problem_10",
    ⟨"Out of Range Values",
     "Find business-logic violations",
     "\nSELECT\n    SUM(CASE WHEN unit_price < 0 THEN 1 ELSE 0 END) as negative_prices,\n    SUM(CASE WHEN quantity < 0 THEN 1 ELSE 0 END) as negative_quantities,\n    SUM(CASE WHEN discount_percent > 100 THEN 1 ELSE 0 END) as impossible_discounts,\n    SUM(CASE WHEN sale_date > CURRENT_DATE THEN 1 ELSE 0 END) as future_dates,\n    SUM(CASE WHEN customer_age < 0 OR customer_age > 120 THEN 1 ELSE 0 END) as impossible_ages,\n    SUM(CASE WHEN rating < 1 OR rating > 5 THEN 1 ELSE 0 END) as invalid_ratings\nFROM \x7bprefix\x7dsales_bad_values;\n"⟩),
   ("problem_11",
    ⟨"CSV Values in Columns (1NF Violation)",
     "Show multi-valued fields that should be separate tables",
     "\n-- Count articles by number of tags\nSELECT\n    (LENGTH(tags) - LENGTH(REPLACE(tags, \x27,\x27, \x27\x27)) + 1) as num_tags,\n    COUNT(*) as article_count\nFROM \x7bprefix\x7darticles_csv_tags\nWHERE tags IS NOT NULL AND tags != \x27\x27\nGROUP BY (LENGTH(tags) - LENGTH(REPLACE(tags, \x27,\x27, \x27\x27)) + 1)\nORDER BY num_tags;\n"⟩),
   ("problem_12",
    ⟨"Encoding and Special Characters",
     "Find records with special characters",
     "\nSELECT customer_name, LENGTH(customer_name) as length\nFROM \x7bprefix\x7dinternational_data\nWHERE customer_name LIKE \x27%ÔøΩ%\x27\n   OR customer_name LIKE \x27%\\n%\x27\n   OR customer_name LIKE \x27%\\t%\x27\nLIMIT 20;\n"⟩),
   ("problem_13",
    ⟨"God Table Redundancy",
     "Show data redundancy in denormalized table",
     "\n-- Same customer info repeated many times\nSELECT customer_id, customer_email,\n       COUNT(*) as times_repeated,\n       COUNT(DISTINCT order_id) as unique_orders\nFROM \x7bprefix\x7dgod_table\nGROUP BY customer_id, customer_email\nORDER BY times_repeated DESC\nLIMIT 10;\n"⟩),
   ("problem_14",
    ⟨"Missing Indexes Impact",
     "Show query that would benefit from indexes",
     "\n-- This query scans full table without indexes\n-- In a real workshop, compare EXPLAIN plans before/after adding index\nSELECT user_id, action_type, COUNT(*) as count\nFROM \x7bprefix\x7daudit_log_no_index\nWHERE created_at > CURRENT_DATE - INTERVAL \x277 days\x27\n  AND action_type = \x27LOGIN\x27\n  AND status = \x27success\x27\nGROUP BY user_id, action_type\nORDER BY count DESC\nLIMIT 10;\n"⟩),
   ("problem_15",
    ⟨"Type Coercion Join Failures",
     "Show how string/int ID mismatch breaks joins",
     "\n-- This join may fail or produce wrong results due to type mismatch\nSELECT\n    a.account_id as int_id,\n    t.account_id as str_id,\n    a.account_name,\n    t.amount\nFROM \x7bprefix\x7daccounts_int_id a\nJOIN \x7bprefix\x7dtransactions_str_id t\n    ON a.account_id = CAST(t.account_id AS INTEGER)\nWHERE t.account_id LIKE \x270%\x27\nLIMIT 10;\n\n-- Count of transactions that won\x27t join properly with direct comparison\nSELECT COUNT(*) as problematic_transactions\nFROM \x7bprefix\x7dtransactions_str_id\nWHERE account_id LIKE \x270%\x27;\n"⟩)]

/-- the prefix chosen by show_diagnostics for a backend. -/
def diagPfx (t : DBType) : String :=
  if t = DBType.mysql then "bdw_" else SCHEMA_NAME ++ "."

/-- show_diagnostics: every entry rendered with the placeholder replaced
by the backend prefix; the result pairs each display name with its query. -/
def showDiagnostics (t : DBType) : List (String × String) :=
  DIAGNOSTIC_QUERIES.map (fun e => (e.2.name, strReplace e.2.query "\x7bprefix\x7d" (diagPfx t)))

/-- whether a character list contains the pattern as a contiguous part. -/
def containsPat (pat : List Char) : List Char → Bool
  | [] => decide (pat = [])
  | c :: rest => pat.isPrefixOf (c :: rest) || containsPat pat rest

/-- the all-zero oracle at wall-clock time t (used for concrete runs). -/
def ctxAt (t : Int) : Ctx := ⟨fun _ => 0, fun _ => 0, fun _ => "", t⟩

/-! ## Generic lemmas about the batching combinators -/

theorem randint_bounds (a b : Int) (h : a ≤ b) (ctx : Ctx) (s : Cnt) :
    a ≤ ((randint a b) ctx s).1 ∧ ((randint a b) ctx s).1 ≤ b := by
  have hne : b - a + 1 ≠ 0 := by omega
  have h0 : (0 : Int) ≤ ((ctx.nats s.ni : Int)) % (b - a + 1) :=
    Int.emod_nonneg _ hne
  have h1 : ((ctx.nats s.ni : Int)) % (b - a + 1) < b - a + 1 :=
    Int.emod_lt_of_pos _ (by omega)
  constructor <;> simp only [randint, drawNat, bind_app, pure_app] <;> omega

theorem rowsRange_length (mk : Nat → M RowV) :
    ∀ (len lo : Nat) (ctx : Ctx) (s : Cnt),
      ((rowsRange lo len mk) ctx s).1.length = len := by
  intro len
  induction len with
  | zero => intro lo ctx s; simp [rowsRange]
  | succ k ih => intro lo ctx s; simp [rowsRange, ih]

theorem rowsRange_prop (mk : Nat → M RowV) (P : RowV → Prop)
    (hP : ∀ (i : Nat) (ctx : Ctx) (s : Cnt), P ((mk i) ctx s).1) :
    ∀ (len lo : Nat) (ctx : Ctx) (s : Cnt),
      ∀ r ∈ ((rowsRange lo len mk) ctx s).1, P r := by
  intro len
  induction len with
  | zero => intro lo ctx s r hr; simp [rowsRange] at hr
  | succ k ih =>
      intro lo ctx s r hr
      simp only [rowsRange, bind_app, pure_app, List.mem_cons] at hr
      rcases hr with h | h
      · exact h ▸ hP lo ctx s
      · exact ih (lo + 1) ctx _ r h

theorem chunkedBatchesAux_sum (mk : Nat → M RowV) :
    ∀ (fuel lo n : Nat), n ≤ fuel → ∀ (ctx : Ctx) (s : Cnt),
      (((chunkedBatchesAux mk fuel lo n) ctx s).1.map List.length).sum = n := by
  intro fuel
  induction fuel with
  | zero =>
      intro lo n hn ctx s
      have : n = 0 := by omega
      subst this
      simp [chunkedBatchesAux]
  | succ f ih =>
      intro lo n hn ctx s
      by_cases h : n = 0
      · subst h; simp [chunkedBatchesAux]
      · have ht1 : (1 : Nat) ≤ (if n ≤ 1000 then n else 1000) := by split <;> omega
        have ht2 : (if n ≤ 1000 then n else 1000) ≤ n := by split <;> omega
        simp only [chunkedBatchesAux, if_neg h, bind_app, pure_app, List.map_cons,
          List.sum_cons]
        rw [rowsRange_length, ih _ _ (by omega)]
        omega

theorem chunkedBatches_sum (mk : Nat → M RowV) (lo n : Nat) (ctx : Ctx) (s : Cnt) :
    (((chunkedBatches lo n mk) ctx s).1.map List.length).sum = n :=
  chunkedBatchesAux_sum mk n lo n le_rfl ctx s

theorem chunkedBatchesAux_le (mk : Nat → M RowV) :
    ∀ (fuel lo n : Nat) (ctx : Ctx) (s : Cnt),
      ∀ b ∈ ((chunkedBatchesAux mk fuel lo n) ctx s).1, b.length ≤ 1000 := by
  intro fuel
  induction fuel with
  | zero => intro lo n ctx s b hb; simp [chunkedBatchesAux] at hb
  | succ f ih =>
      intro lo n ctx s b hb
      by_cases h : n = 0
      · subst h; simp [chunkedBatchesAux] at hb
      · simp only [chunkedBatchesAux, if_neg h, bind_app, pure_app,
          List.mem_cons] at hb
        rcases hb with hb | hb
        · subst hb
          rw [rowsRange_length]
          split <;> omega
        · exact ih _ _ ctx _ b hb

theorem chunkedBatches_le (mk : Nat → M RowV) (lo n : Nat) (ctx : Ctx) (s : Cnt) :
    ∀ b ∈ ((chunkedBatches lo n mk) ctx s).1, b.length ≤ 1000 :=
  chunkedBatchesAux_le mk n lo n ctx s

theorem chunkedBatchesAux_prop (mk : Nat → M RowV) (P : RowV → Prop)
    (hP : ∀ (i : Nat) (ctx : Ctx) (s : Cnt), P ((mk i) ctx s).1) :
    ∀ (fuel lo n : Nat) (ctx : Ctx) (s : Cnt),
      ∀ b ∈ ((chunkedBatchesAux mk fuel lo n) ctx s).1, ∀ r ∈ b, P r := by
  intro fuel
  induction fuel with
  | zero => intro lo n ctx s b hb; simp [chunkedBatchesAux] at hb
  | succ f ih =>
      intro lo n ctx s b hb
      by_cases h : n = 0
      · subst h; simp [chunkedBatchesAux] at hb
      · simp only [chunkedBatchesAux, if_neg h, bind_app, pure_app,
          List.mem_cons] at hb
        rcases hb with hb | hb
        · subst hb; exact rowsRange_prop mk P hP _ _ ctx s
        · exact ih _ _ ctx _ b hb

theorem chunkedBatches_prop (mk : Nat → M RowV) (P : RowV → Prop)
    (hP : ∀ (i : Nat) (ctx : Ctx) (s : Cnt), P ((mk i) ctx s).1)
    (lo n : Nat) (ctx : Ctx) (s : Cnt) :
    ∀ b ∈ ((chunkedBatches lo n mk) ctx s).1, ∀ r ∈ b, P r :=
  chunkedBatchesAux_prop mk P hP n lo n ctx s

theorem rowsRangeG_length_bounds (mk : Nat → M (List RowV))
    (hmk : ∀ (i : Nat) (ctx : Ctx) (s : Cnt),
      1 ≤ ((mk i) ctx s).1.length ∧ ((mk i) ctx s).1.length ≤ 2) :
    ∀ (len lo : Nat) (ctx : Ctx) (s : Cnt),
      len ≤ ((rowsRangeG lo len mk) ctx s).1.length ∧
        ((rowsRangeG lo len mk) ctx s).1.length ≤ 2 * len := by
  intro len
  induction len with
  | zero => intro lo ctx s; simp [rowsRangeG]
  | succ k ih =>
      intro lo ctx s
      simp only [rowsRangeG, bind_app, pure_app, List.length_append]
      have h1 := hmk lo ctx s
      have h2 := ih (lo + 1) ctx ((mk lo) ctx s).2
      omega

theorem rowsRangeG_length_eq2 (mk : Nat → M (List RowV)) (ctx : Ctx)
    (hmk : ∀ (i : Nat) (s : Cnt), ((mk i) ctx s).1.length = 2) :
    ∀ (len lo : Nat) (s : Cnt),
      ((rowsRangeG lo len mk) ctx s).1.length = 2 * len := by
  intro len
  induction len with
  | zero => intro lo s; simp [rowsRangeG]
  | succ k ih =>
      intro lo s
      simp only [rowsRangeG, bind_app, pure_app, List.length_append]
      rw [hmk, ih]
      omega

theorem chunkedBatchesGAux_bounds (mk : Nat → M (List RowV))
    (hmk : ∀ (i : Nat) (ctx : Ctx) (s : Cnt),
      1 ≤ ((mk i) ctx s).1.length ∧ ((mk i) ctx s).1.length ≤ 2) :
    ∀ (fuel lo n : Nat), n ≤ fuel → ∀ (ctx : Ctx) (s : Cnt),
      n ≤ (((chunkedBatchesGAux mk fuel lo n) ctx s).1.map List.length).sum ∧
        (((chunkedBatchesGAux mk fuel lo n) ctx s).1.map List.length).sum ≤ 2 * n := by
  intro fuel
  induction fuel with
  | zero =>
      intro lo n hn ctx s
      have : n = 0 := by omega
      subst this
      simp [chunkedBatchesGAux]
  | succ f ih =>
      intro lo n hn ctx s
      by_cases h : n = 0
      · subst h; simp [chunkedBatchesGAux]
      · have ht1 : (1 : Nat) ≤ (if n ≤ 1000 then n else 1000) := by split <;> omega
        have ht2 : (if n ≤ 1000 then n else 1000) ≤ n := by split <;> omega
        simp only [chunkedBatchesGAux, if_neg h, bind_app, pure_app, List.map_cons,
          List.sum_cons]
        have hb := rowsRangeG_length_bounds mk hmk (if n ≤ 1000 then n else 1000) lo ctx s
        have hrest := ih (lo + (if n ≤ 1000 then n else 1000))
          (n - (if n ≤ 1000 then n else 1000)) (by omega) ctx
          (((rowsRangeG lo (if n ≤ 1000 then n else 1000) mk) ctx s).2)
        omega

theorem chunkedBatchesGAux_le (mk : Nat → M (List RowV))
    (hmk : ∀ (i : Nat) (ctx : Ctx) (s : Cnt),
      1 ≤ ((mk i) ctx s).1.length ∧ ((mk i) ctx s).1.length ≤ 2) :
    ∀ (fuel lo n : Nat) (ctx : Ctx) (s : Cnt),
      ∀ b ∈ ((chunkedBatchesGAux mk fuel lo n) ctx s).1, b.length ≤ 2000 := by
  intro fuel
  induction fuel with
  | zero => intro lo n ctx s b hb; simp [chunkedBatchesGAux] at hb
  | succ f ih =>
      intro lo n ctx s b hb
      by_cases h : n = 0
      · subst h; simp [chunkedBatchesGAux] at hb
      · simp only [chunkedBatchesGAux, if_neg h, bind_app, pure_app,
          List.mem_cons] at hb
        rcases hb with hb | hb
        · subst hb
          have hbnd := rowsRangeG_length_bounds mk hmk (if n ≤ 1000 then n else 1000) lo ctx s
          have : (if n ≤ 1000 then n else 1000) ≤ 1000 := by split <;> omega
          omega
        · exact ih _ _ ctx _ b hb

theorem bufferedBatches_join :
    ∀ (gs : List (List RowV)) (buf : List RowV),
      (bufferedBatches gs buf).flatten = buf ++ gs.flatten := by
  intro gs
  induction gs with
  | nil =>
      intro buf
      by_cases h : buf.isEmpty
      · simp [bufferedBatches, h, List.isEmpty_iff.mp h]
      · simp [bufferedBatches, h]
  | cons g rest ih =>
      intro buf
      simp only [bufferedBatches]
      split
      · simp [ih, List.append_assoc]
      · simp [ih, List.append_assoc]

theorem bufferedBatches_le (G : Nat) :
    ∀ (gs : List (List RowV)) (buf : List RowV),
      (∀ g ∈ gs, g.length ≤ G) → buf.length ≤ 999 →
      ∀ b ∈ bufferedBatches gs buf, b.length ≤ 999 + G := by
  intro gs
  induction gs with
  | nil =>
      intro buf _ hbuf b hb
      by_cases h : buf.isEmpty
      · simp [bufferedBatches, h] at hb
      · simp [bufferedBatches, h] at hb
        subst hb
        omega
  | cons g rest ih =>
      intro buf hg hbuf b hb
      have hgG : g.length ≤ G := hg g (by simp)
      have hrest : ∀ x ∈ rest, x.length ≤ G := fun x hx => hg x (by simp [hx])
      by_cases h : 1000 ≤ (buf ++ g).length
      · simp only [bufferedBatches, if_pos h, List.mem_cons] at hb
        rcases hb with hb | hb
        · subst hb
          simp only [List.length_append]
          omega
        · exact ih [] hrest (by simp) b hb
      · simp only [bufferedBatches, if_neg h] at hb
        refine ih (buf ++ g) hrest ?_ b hb
        simp only [List.length_append] at h ⊢
        omega

theorem rowsInto_map_execMany_same (tbl : String) (bs : List (List RowV)) :
    rowsInto tbl (bs.map (DBEvent.execMany tbl)) = bs.flatten := by
  induction bs with
  | nil => rfl
  | cons b rest ih => simp [rowsInto, ih]

theorem batchSizes_map_execMany (tbl : String) (bs : List (List RowV)) :
    batchSizes (bs.map (DBEvent.execMany tbl)) = bs.map List.length := by
  induction bs with
  | nil => rfl
  | cons b rest ih => simp [batchSizes, ih]

theorem rowsInto_std (tbl sql : String) (bs : List (List RowV)) :
    rowsInto tbl (DBEvent.exec sql :: bs.map (DBEvent.execMany tbl) ++ [DBEvent.commit]) =
      bs.flatten := by
  rw [List.cons_append, rowsInto_exec, rowsInto_append, rowsInto_map_execMany_same]
  simp [rowsInto]

theorem batchSizes_std (tbl sql : String) (bs : List (List RowV)) :
    batchSizes (DBEvent.exec sql :: bs.map (DBEvent.execMany tbl) ++ [DBEvent.commit]) =
      bs.map List.length := by
  rw [List.cons_append, batchSizes_exec, batchSizes_append, batchSizes_map_execMany]
  simp [batchSizes]

theorem commitCount_map_execMany (tbl : String) (bs : List (List RowV)) :
    commitCount (bs.map (DBEvent.execMany tbl)) = 0 := by
  rw [commitCount, List.count_eq_zero]
  intro h
  simp only [List.mem_map] at h
  obtain ⟨b, _, hb⟩ := h
  simp at hb

theorem commitCount_append (l₁ l₂ : List DBEvent) :
    commitCount (l₁ ++ l₂) = commitCount l₁ + commitCount l₂ :=
  List.count_append _ _ _

@[simp] theorem commitCount_exec_cons (sql : String) (l : List DBEvent) :
    commitCount (DBEvent.exec sql :: l) = commitCount l := by
  rw [commitCount, List.count_cons_of_ne (by simp), commitCount]

@[simp] theorem commitCount_execMany_cons (tbl : String) (rs : List RowV)
    (l : List DBEvent) :
    commitCount (DBEvent.execMany tbl rs :: l) = commitCount l := by
  rw [commitCount, List.count_cons_of_ne (by simp), commitCount]

@[simp] theorem commitCount_nil : commitCount [] = 0 := rfl

/-! ## Shape and count lemmas for the individual generators -/

theorem rowsInto_map_execMany_ne (tbl t : String) (h : t ≠ tbl) (bs : List (List RowV)) :
    rowsInto tbl (bs.map (DBEvent.execMany t)) = [] := by
  induction bs with
  | nil => rfl
  | cons b rest ih => simp [rowsInto, h, ih]

theorem problem_01_shape (pfx : String) (n : Nat) (ctx : Ctx) (s : Cnt) :
    (problem_01 pfx n ctx s).1 =
      DBEvent.exec ("CREATE TABLE " ++ pfx ++ "customers_no_pk (customer_id INTEGER, first_name VARCHAR(100), last_name VARCHAR(100), email VARCHAR(255), created_at TIMESTAMP)")
        :: ((chunkedBatchesG 0 n p01RowGroup) ctx s).1.map (DBEvent.execMany "customers_no_pk")
        ++ [DBEvent.commit] := rfl

theorem p01RowGroup_size (i : Nat) (ctx : Ctx) (s : Cnt) :
    1 ≤ ((p01RowGroup i) ctx s).1.length ∧ ((p01RowGroup i) ctx s).1.length ≤ 2 := by
  simp only [p01RowGroup, bind_app, pure_app]
  split <;> simp

theorem problem_01_count (pfx : String) (n : Nat) (ctx : Ctx) (s : Cnt) :
    n ≤ (rowsInto "customers_no_pk" ((problem_01 pfx n) ctx s).1).length ∧
      (rowsInto "customers_no_pk" ((problem_01 pfx n) ctx s).1).length ≤ 2 * n := by
  rw [problem_01_shape, rowsInto_std, List.length_flatten]
  exact chunkedBatchesGAux_bounds p01RowGroup p01RowGroup_size n 0 n le_rfl ctx s

theorem problem_02_shape (pfx ai : String) (n : Nat) (ctx : Ctx) (s : Cnt) :
    (problem_02 pfx ai n ctx s).1 =
      DBEvent.exec ("CREATE TABLE " ++ pfx ++ "products (product_id " ++ ai ++ " PRIMARY KEY, product_name VARCHAR(200), price DECIMAL(10,2))")
        :: DBEvent.execMany "products" ((rowsRange 0 100 p02ProductRow) ctx s).1
        :: DBEvent.exec ("CREATE TABLE " ++ pfx ++ "orders_no_fk (order_id " ++ ai ++ " PRIMARY KEY, customer_id INTEGER, product_id INTEGER, quantity INTEGER, order_date TIMESTAMP)")
        :: ((chunkedBatches 0 n p02OrderRow) ctx ((rowsRange 0 100 p02ProductRow) ctx s).2).1.map
            (DBEvent.execMany "orders_no_fk")
        ++ [DBEvent.commit] := rfl

theorem problem_02_counts (pfx ai : String) (n : Nat) (ctx : Ctx) (s : Cnt) :
    (rowsInto "products" ((problem_02 pfx ai n) ctx s).1).length = 100 ∧
      (rowsInto "orders_no_fk" ((problem_02 pfx ai n) ctx s).1).length = n := by
  rw [problem_02_shape]
  constructor
  · simp only [rowsInto_exec, rowsInto_execMany, if_pos rfl, rowsInto_append,
      rowsInto_map_execMany_ne "products" "orders_no_fk" (by decide),
      rowsInto_commit, rowsInto_nil, List.append_nil, List.length_append,
      List.length_nil]
    simp [rowsRange_length]
  · simp only [rowsInto_exec, rowsInto_execMany, if_neg (by decide : ¬ "products" = "orders_no_fk"),
      rowsInto_append, rowsInto_map_execMany_same, rowsInto_commit, rowsInto_nil,
      List.append_nil, List.length_flatten]
    exact chunkedBatches_sum p02OrderRow 0 n ctx _

theorem problem_05_shape (pfx ai : String) (n : Nat) (ctx : Ctx) (s : Cnt) :
    (problem_05 pfx ai n ctx s).1 =
      DBEvent.exec ("CREATE TABLE " ++ pfx ++ "users_duplicates (row_id " ++ ai ++ " PRIMARY KEY, user_id INTEGER, username VARCHAR(100), email VARCHAR(255), phone VARCHAR(50), created_at TIMESTAMP)")
        :: (bufferedBatches
              ((groupsFor (((usersM 0 (n / 3)) ctx s).1)) ctx ((usersM 0 (n / 3)) ctx s).2).1
              []).map (DBEvent.execMany "users_duplicates")
        ++ [DBEvent.commit] := rfl

theorem problem_13_shape (pfx : String) (n : Nat) (ctx : Ctx) (s : Cnt) :
    ∃ sql : String,
      (problem_13 pfx n ctx s).1 =
        DBEvent.exec sql
          :: (bufferedBatches
                (((rowsRange 0 n
                    (p13Row (((buildList mkCust13 0 100) ctx s).1)
                      (((buildList mkProd13 0 50) ctx ((buildList mkCust13 0 100) ctx s).2).1)))
                  ctx ((buildList mkProd13 0 50) ctx ((buildList mkCust13 0 100) ctx s).2).2).1.map
                  (fun r => [r]))
                []).map (DBEvent.execMany "god_table")
          ++ [DBEvent.commit] :=
  ⟨_, rfl⟩

theorem problem_15_shape (pfx : String) (n : Nat) (ctx : Ctx) (s : Cnt) :
    (problem_15 pfx n ctx s).1 =
      DBEvent.exec ("CREATE TABLE " ++ pfx ++ "accounts_int_id (account_id INTEGER PRIMARY KEY, account_name VARCHAR(200), balance DECIMAL(15,2))")
        :: DBEvent.exec ("CREATE TABLE " ++ pfx ++ "transactions_str_id (txn_id INTEGER, account_id VARCHAR(20), amount DECIMAL(10,2), txn_date DATE)")
        :: DBEvent.execMany "accounts_int_id" ((rowsRange 0 1000 p15AccountRow) ctx s).1
        :: ((chunkedBatches 0 n p15TxnRow) ctx ((rowsRange 0 1000 p15AccountRow) ctx s).2).1.map
            (DBEvent.execMany "transactions_str_id")
        ++ [DBEvent.commit] := rfl

/-! ## Duplicate-group counting for generator 5 -/

/-- how many inserted rows carry the given user_id value. -/
def countUid (rows : List RowV) (u : Int) : Nat :=
  rows.countP (fun r => r.head? == some (Val.i u))

/-- how many inserted rows carry the given (user_id, username, email)
triple, the natural key the duplicate diagnostic groups by. -/
def countTriple (rows : List RowV) (u : Int) (un em : String) : Nat :=
  rows.countP (fun r => r.take 3 == [Val.i u, Val.s un, Val.s em])

theorem usersM_length : ∀ (len lo : Nat) (ctx : Ctx) (s : Cnt),
    ((usersM lo len) ctx s).1.length = len := by
  intro len
  induction len with
  | zero => intro lo ctx s; simp [usersM]
  | succ k ih => intro lo ctx s; simp [usersM, ih]

theorem usersM_uids : ∀ (len lo : Nat) (ctx : Ctx) (s : Cnt),
    ((usersM lo len) ctx s).1.map User5.uid = List.range' (lo + 1) len := by
  intro len
  induction len with
  | zero => intro lo ctx s; simp [usersM]
  | succ k ih =>
      intro lo ctx s
      simp only [usersM, bind_app, pure_app, List.map_cons, List.range'_succ]
      refine congrArg₂ _ rfl ?_
      rw [ih]

theorem mkUser_fi (i : Nat) (ctx : Ctx) (s : Cnt) :
    ((mkUser i) ctx s).2.fi = s.fi := rfl

theorem usersM_fi : ∀ (len lo : Nat) (ctx : Ctx) (s : Cnt),
    ((usersM lo len) ctx s).2.fi = s.fi := by
  intro len
  induction len with
  | zero => intro lo ctx s; rfl
  | succ k ih =>
      intro lo ctx s
      simp only [usersM, bind_app, pure_app]
      rw [ih, mkUser_fi]

theorem groupOf_spec (u : User5) (ctx : Ctx) (s : Cnt) :
    ∃ k, 1 ≤ k ∧ k ≤ 4 ∧ ((groupOf u) ctx s).1 = List.replicate k u.row := by
  simp only [groupOf, bind_app, pure_app]
  split
  · have hb := randint_bounds 1 3 (by omega) ctx ((drawFloat) ctx s).2
    refine ⟨1 + (((randint 1 3) ctx ((drawFloat) ctx s).2).1).toNat, by omega, by omega, ?_⟩
    simp [bind_app, pure_app]
  · exact ⟨1, by omega, by omega, by simp⟩

theorem countP_le_of_imp (p q : RowV → Bool) (h : ∀ r, p r = true → q r = true) :
    ∀ l : List RowV, l.countP p ≤ l.countP q := by
  intro l
  induction l with
  | nil => simp
  | cons a t ih =>
      rw [List.countP_cons, List.countP_cons]
      by_cases hp : p a
      · rw [if_pos hp, if_pos (h a hp)]; omega
      · rw [if_neg hp]
        split <;> omega

theorem countTriple_le_countUid (rows : List RowV) (u : Int) (un em : String) :
    countTriple rows u un em ≤ countUid rows u := by
  apply countP_le_of_imp
  intro r h
  rw [beq_iff_eq] at h
  cases r with
  | nil => simp at h
  | cons a t =>
      rw [List.take_succ_cons] at h
      have ha : a = Val.i u := (List.cons_eq_cons.mp h).1
      subst ha
      simp

theorem countP_replicate (p : RowV → Bool) (k : Nat) (r : RowV) :
    (List.replicate k r).countP p = if p r then k else 0 := by
  induction k with
  | zero => simp
  | succ m ih =>
      rw [List.replicate_succ, List.countP_cons, ih]
      split <;> omega

theorem countP_append_rows (p : RowV → Bool) (l₁ l₂ : List RowV) :
    (l₁ ++ l₂).countP p = l₁.countP p + l₂.countP p :=
  List.countP_append _ _ _

theorem groupsFor_flatten_bounds :
    ∀ (us : List User5) (ctx : Ctx) (s : Cnt),
      us.length ≤ (((groupsFor us) ctx s).1.flatten).length ∧
        (((groupsFor us) ctx s).1.flatten).length ≤ 4 * us.length := by
  intro us
  induction us with
  | nil => intro ctx s; simp [groupsFor]
  | cons u0 rest ih =>
      intro ctx s
      obtain ⟨k, hk1, hk4, hg⟩ := groupOf_spec u0 ctx s
      simp only [groupsFor, bind_app, pure_app, List.flatten_cons, List.length_append,
        List.length_cons]
      rw [hg, List.length_replicate]
      have := ih ctx (((groupOf u0) ctx s).2)
      omega

theorem groupsFor_countUid_zero :
    ∀ (us : List User5) (lo : Nat), us.map User5.uid = List.range' (lo + 1) us.length →
    ∀ (ctx : Ctx) (s : Cnt) (u : Int), u < (lo : Int) + 1 →
      countUid (((groupsFor us) ctx s).1.flatten) u = 0 := by
  intro us
  induction us with
  | nil => intro lo _ ctx s u _; simp [groupsFor, countUid]
  | cons u0 rest ih =>
      intro lo hmap ctx s u hu
      rw [List.map_cons, List.length_cons, List.range'_succ] at hmap
      have h0 : u0.uid = lo + 1 := (List.cons_eq_cons.mp hmap).1
      have hrest : rest.map User5.uid = List.range' (lo + 1 + 1) rest.length :=
        (List.cons_eq_cons.mp hmap).2
      obtain ⟨k, _, _, hg⟩ := groupOf_spec u0 ctx s
      simp only [groupsFor, bind_app, pure_app, List.flatten_cons]
      rw [countUid, countP_append_rows, hg, countP_replicate]
      have hne : ¬ (u0.row.head? == some (Val.i u)) = true := by
        simp only [User5.row, List.head?_cons, beq_iff_eq, Option.some.injEq, Val.i.injEq]
        intro hx
        rw [h0] at hx
        omega
      rw [if_neg hne]
      have := ih (lo + 1) hrest ctx (((groupOf u0) ctx s).2) u (by push_cast; omega)
      rw [countUid] at this
      omega

theorem groupsFor_countUid_le :
    ∀ (us : List User5) (lo : Nat), us.map User5.uid = List.range' (lo + 1) us.length →
    ∀ (ctx : Ctx) (s : Cnt) (u : Int),
      countUid (((groupsFor us) ctx s).1.flatten) u ≤ 4 := by
  intro us
  induction us with
  | nil => intro lo _ ctx s u; simp [groupsFor, countUid]
  | cons u0 rest ih =>
      intro lo hmap ctx s u
      rw [List.map_cons, List.length_cons, List.range'_succ] at hmap
      have h0 : u0.uid = lo + 1 := (List.cons_eq_cons.mp hmap).1
      have hrest : rest.map User5.uid = List.range' (lo + 1 + 1) rest.length :=
        (List.cons_eq_cons.mp hmap).2
      obtain ⟨k, hk1, hk4, hg⟩ := groupOf_spec u0 ctx s
      simp only [groupsFor, bind_app, pure_app, List.flatten_cons]
      rw [countUid, countP_append_rows, hg, countP_replicate]
      by_cases hu : u = ((lo : Int) + 1)
      · have hzero := groupsFor_countUid_zero rest (lo + 1) hrest ctx
          (((groupOf u0) ctx s).2) u (by omega)
        rw [countUid] at hzero
        split <;> omega
      · have hne : ¬ (u0.row.head? == some (Val.i u)) = true := by
          simp only [User5.row, List.head?_cons, beq_iff_eq, Option.some.injEq, Val.i.injEq]
          intro hx
          rw [h0] at hx
          push_cast at hx
          omega
        rw [if_neg hne]
        have := ih (lo + 1) hrest ctx (((groupOf u0) ctx s).2) u
        rw [countUid] at this
        omega

theorem groupsFor_first_dup (u0 : User5) (rest : List User5) (ctx : Ctx) (s : Cnt)
    (hc : ctx.floats s.fi < mkRat 1 2) :
    2 ≤ countTriple (((groupsFor (u0 :: rest)) ctx s).1.flatten) ((u0.uid : Int)) u0.un u0.em := by
  have hb := randint_bounds 1 3 (by omega) ctx ((drawFloat) ctx s).2
  have hg : ((groupOf u0) ctx s).1 =
      List.replicate (1 + (((randint 1 3) ctx ((drawFloat) ctx s).2).1).toNat) u0.row := by
    simp only [groupOf, bind_app, pure_app]
    rw [if_pos (show ((drawFloat) ctx s).1 < mkRat 1 2 from hc)]
    simp [bind_app, pure_app]
  simp only [groupsFor, bind_app, pure_app, List.flatten_cons]
  rw [countTriple, countP_append_rows, hg, countP_replicate]
  have hmatch : (u0.row.take 3 == [Val.i (u0.uid : Int), Val.s u0.un, Val.s u0.em]) = true := by
    simp [User5.row]
  rw [if_pos hmatch]
  omega

/-! ## Row-level specifications for generators 2 and 15 -/

theorem p02OrderRow_spec (i : Nat) (ctx : Ctx) (s : Cnt) :
    ∃ cid pid qty od,
      ((p02OrderRow i) ctx s).1 = [Val.i cid, Val.i pid, Val.i qty, Val.dt od] ∧
      (ctx.floats s.fi < mkRat 3 10 → 900000 ≤ cid ∧ cid ≤ 999999) ∧
      (¬ ctx.floats s.fi < mkRat 3 10 → 1 ≤ cid ∧ cid ≤ 10000) ∧
      (ctx.floats (s.fi + 1) < mkRat 1 5 → 500 ≤ pid ∧ pid ≤ 999) ∧
      (¬ ctx.floats (s.fi + 1) < mkRat 1 5 → 1 ≤ pid ∧ pid ≤ 100) := by
  by_cases h1 : ctx.floats s.fi < mkRat 3 10 <;>
    by_cases h2 : ctx.floats (s.fi + 1) < mkRat 1 5 <;>
    · simp only [p02OrderRow, bind_app, pure_app, drawFloat, drawNat, randint,
        nowM, fakeDateBetween]
      first
        | rw [if_pos h1]
        | rw [if_neg h1]
      simp only [bind_app, pure_app, drawFloat, drawNat, nowM]
      first
        | rw [if_pos h2]
        | rw [if_neg h2]
      simp only [bind_app, pure_app, drawFloat, drawNat, nowM]
      refine ⟨_, _, _, _, rfl, ?_, ?_, ?_, ?_⟩ <;>
        intro h <;>
        first
          | exact absurd h1 h
          | exact absurd h2 h
          | exact absurd h h1
          | exact absurd h h2
          | omega

theorem parseNat_roundtrip : ∀ m : Nat, m < 1001 →
    parseNat (toString m) = m ∧ parseNat (padZeros 10 (toString m)) = m := by
  decide

theorem p15TxnRow_spec (i : Nat) (ctx : Ctx) (s : Cnt) :
    ∃ (m : Nat) (aidStr : String) (amt : ℚ) (dt : Int),
      ((p15TxnRow i) ctx s).1 = [Val.i ((i : Int) + 1), Val.s aidStr, Val.q amt, Val.dt dt] ∧
      1 ≤ m ∧ m ≤ 1000 ∧
      (ctx.floats s.fi < mkRat 2 5 → aidStr = padZeros 10 (toString m)) ∧
      (¬ ctx.floats s.fi < mkRat 2 5 → aidStr = toString m) ∧
      parseNat aidStr = m := by
  have hb := randint_bounds 1 1000 (by omega) ctx s
  have hm1 : 1 ≤ (((randint 1 1000) ctx s).1).toNat := by omega
  have hm2 : (((randint 1 1000) ctx s).1).toNat ≤ 1000 := by omega
  have hrt := parseNat_roundtrip (((randint 1 1000) ctx s).1).toNat (by omega)
  by_cases hc : ctx.floats s.fi < mkRat 2 5
  · refine ⟨(((randint 1 1000) ctx s).1).toNat,
      padZeros 10 (toString (((randint 1 1000) ctx s).1).toNat),
      round2 ((-1000) + ((1000 : ℚ) - (-1000)) * ctx.floats (s.fi + 1)),
      (ctx.now + (-365)) + ((ctx.nats (s.ni + 1) : Int)) % ((0 : Int) - (-365) + 1),
      ?_, hm1, hm2, fun _ => rfl, fun h => absurd hc h, hrt.2⟩
    simp only [p15TxnRow, bind_app, pure_app, drawFloat, drawNat, randint, nowM,
      fakeDateBetween, uniform]
    rw [if_pos hc]
  · refine ⟨(((randint 1 1000) ctx s).1).toNat,
      toString (((randint 1 1000) ctx s).1).toNat,
      round2 ((-1000) + ((1000 : ℚ) - (-1000)) * ctx.floats (s.fi + 1)),
      (ctx.now + (-365)) + ((ctx.nats (s.ni + 1) : Int)) % ((0 : Int) - (-365) + 1),
      ?_, hm1, hm2, fun h => absurd h hc, fun _ => rfl, hrt.1⟩
    simp only [p15TxnRow, bind_app, pure_app, drawFloat, drawNat, randint, nowM,
      fakeDateBetween, uniform]
    rw [if_neg hc]

theorem problem_15_counts (pfx : String) (n : Nat) (ctx : Ctx) (s : Cnt) :
    (rowsInto "accounts_int_id" ((problem_15 pfx n) ctx s).1).length = 1000 ∧
      (rowsInto "transactions_str_id" ((problem_15 pfx n) ctx s).1).length = n := by
  rw [problem_15_shape]
  constructor
  · simp only [rowsInto_exec, rowsInto_execMany, if_pos rfl, rowsInto_append,
      rowsInto_map_execMany_ne "accounts_int_id" "transactions_str_id" (by decide),
      rowsInto_commit, rowsInto_nil, List.append_nil, List.length_append,
      List.length_nil]
    simp [rowsRange_length]
  · simp only [rowsInto_exec, rowsInto_execMany,
      if_neg (by decide : ¬ "accounts_int_id" = "transactions_str_id"),
      rowsInto_append, rowsInto_map_execMany_same, rowsInto_commit, rowsInto_nil,
      List.append_nil, List.length_flatten]
    exact chunkedBatches_sum p15TxnRow 0 n ctx _

theorem p15Accounts_ids : ∀ (len lo : Nat) (ctx : Ctx) (s : Cnt),
    ((rowsRange lo len p15AccountRow) ctx s).1.map (fun r => r.head?) =
      (List.range' (lo + 1) len).map (fun j => some (Val.i (Int.ofNat j))) := by
  intro len
  induction len with
  | zero => intro lo ctx s; simp [rowsRange]
  | succ k ih =>
      intro lo ctx s
      simp only [rowsRange, bind_app, pure_app, List.map_cons, List.range'_succ]
      refine congrArg₂ _ ?_ ?_
      · show some (Val.i ((lo : Int) + 1)) = some (Val.i (Int.ofNat (lo + 1)))
        rfl
      · rw [ih]

theorem flatten_map_singleton {α : Type} (l : List α) :
    (l.map (fun r => [r])).flatten = l := by
  induction l with
  | nil => rfl
  | cons a t ih => simp [ih]

theorem getLast?_append_single {α : Type} (xs : List α) (c : α) :
    (xs ++ [c]).getLast? = some c :=
  List.getLast?_concat xs

theorem commit_tail_facts (body : List DBEvent) (h : commitCount body = 0) :
    commitCount (body ++ [DBEvent.commit]) = 1 ∧
      (body ++ [DBEvent.commit]).getLast? = some DBEvent.commit := by
  constructor
  · rw [commitCount_append, h]
    rfl
  · exact getLast?_append_single body DBEvent.commit

theorem chunked_count (tbl sql : String) (n : Nat) (mk : Nat → M RowV)
    (ctx : Ctx) (s : Cnt) :
    (rowsInto tbl (DBEvent.exec sql ::
      ((chunkedBatches 0 n mk) ctx s).1.map (DBEvent.execMany tbl) ++
      [DBEvent.commit])).length = n := by
  rw [rowsInto_std, List.length_flatten, chunkedBatches_sum]

theorem chunked_batch_le (tbl sql : String) (n : Nat) (mk : Nat → M RowV)
    (ctx : Ctx) (s : Cnt) :
    ∀ k ∈ batchSizes (DBEvent.exec sql ::
      ((chunkedBatches 0 n mk) ctx s).1.map (DBEvent.execMany tbl) ++
      [DBEvent.commit]), k ≤ 1000 := by
  rw [batchSizes_std]
  intro k hk
  simp only [List.mem_map] at hk
  obtain ⟨b, hb, rfl⟩ := hk
  exact chunkedBatches_le mk 0 n ctx s b hb

theorem groupsFor_sizes : ∀ (us : List User5) (ctx : Ctx) (s : Cnt),
    ∀ g ∈ ((groupsFor us) ctx s).1, 1 ≤ g.length ∧ g.length ≤ 4 := by
  intro us
  induction us with
  | nil => intro ctx s g hg; simp [groupsFor] at hg
  | cons u0 rest ih =>
      intro ctx s g hg
      simp only [groupsFor, bind_app, pure_app, List.mem_cons] at hg
      rcases hg with hg | hg
      · obtain ⟨k, hk1, hk4, hrepl⟩ := groupOf_spec u0 ctx s
        subst hg
        rw [hrepl, List.length_replicate]
        omega
      · exact ih ctx _ g hg

theorem problem_05_rows (pfx ai : String) (n : Nat) (ctx : Ctx) (s : Cnt) :
    rowsInto "users_duplicates" ((problem_05 pfx ai n) ctx s).1 =
      ((groupsFor (((usersM 0 (n / 3)) ctx s).1)) ctx
        ((usersM 0 (n / 3)) ctx s).2).1.flatten := by
  rw [problem_05_shape, rowsInto_std, bufferedBatches_join, List.nil_append]

theorem problem_05_count (pfx ai : String) (n : Nat) (ctx : Ctx) (s : Cnt) :
    n / 3 ≤ (rowsInto "users_duplicates" ((problem_05 pfx ai n) ctx s).1).length ∧
      (rowsInto "users_duplicates" ((problem_05 pfx ai n) ctx s).1).length ≤ 4 * (n / 3) := by
  rw [problem_05_rows]
  have hb := groupsFor_flatten_bounds (((usersM 0 (n / 3)) ctx s).1) ctx
    ((usersM 0 (n / 3)) ctx s).2
  rw [usersM_length] at hb
  exact hb

theorem problem_13_count (pfx : String) (n : Nat) (ctx : Ctx) (s : Cnt) :
    (rowsInto "god_table" ((problem_13 pfx n) ctx s).1).length = n := by
  obtain ⟨sql, hs⟩ := problem_13_shape pfx n ctx s
  rw [hs, rowsInto_std, bufferedBatches_join, List.nil_append, flatten_map_singleton,
    rowsRange_length]

theorem problem_01_batches_le (pfx : String) (n : Nat) (ctx : Ctx) (s : Cnt) :
    ∀ k ∈ batchSizes ((problem_01 pfx n) ctx s).1, k ≤ 2000 := by
  rw [problem_01_shape, batchSizes_std]
  intro k hk
  simp only [List.mem_map] at hk
  obtain ⟨b, hb, rfl⟩ := hk
  exact chunkedBatchesGAux_le p01RowGroup p01RowGroup_size n 0 n ctx s b hb

theorem problem_02_batches_le (pfx ai : String) (n : Nat) (ctx : Ctx) (s : Cnt) :
    ∀ k ∈ batchSizes ((problem_02 pfx ai n) ctx s).1, k ≤ 1000 := by
  rw [problem_02_shape]
  simp only [batchSizes_exec, batchSizes_execMany, batchSizes_append,
    batchSizes_map_execMany, batchSizes_commit, batchSizes_nil, List.append_nil]
  intro k hk
  rcases List.mem_cons.mp hk with hk | hk
  · rw [hk, rowsRange_length]
    omega
  · simp only [List.mem_map] at hk
    obtain ⟨b, hb, rfl⟩ := hk
    exact chunkedBatches_le p02OrderRow 0 n ctx _ b hb

theorem problem_05_batches_le (pfx ai : String) (n : Nat) (ctx : Ctx) (s : Cnt) :
    ∀ k ∈ batchSizes ((problem_05 pfx ai n) ctx s).1, k ≤ 1003 := by
  rw [problem_05_shape, batchSizes_std]
  intro k hk
  simp only [List.mem_map] at hk
  obtain ⟨b, hb, rfl⟩ := hk
  have := bufferedBatches_le 4 _ []
    (fun g hg => (groupsFor_sizes _ ctx _ g hg).2) (by simp) b hb
  omega

theorem problem_13_batches_le (pfx : String) (n : Nat) (ctx : Ctx) (s : Cnt) :
    ∀ k ∈ batchSizes ((problem_13 pfx n) ctx s).1, k ≤ 1000 := by
  obtain ⟨sql, hs⟩ := problem_13_shape pfx n ctx s
  rw [hs, batchSizes_std]
  intro k hk
  simp only [List.mem_map] at hk
  obtain ⟨b, hb, rfl⟩ := hk
  have hg : ∀ g ∈ (((rowsRange 0 n
      (p13Row (((buildList mkCust13 0 100) ctx s).1)
        (((buildList mkProd13 0 50) ctx ((buildList mkCust13 0 100) ctx s).2).1)))
      ctx ((buildList mkProd13 0 50) ctx ((buildList mkCust13 0 100) ctx s).2).2).1.map
      (fun r => [r])), g.length ≤ 1 := by
    intro g hg
    simp only [List.mem_map] at hg
    obtain ⟨r, _, rfl⟩ := hg
    simp
  have := bufferedBatches_le 1 _ [] hg (by simp) b hb
  omega

theorem problem_15_batches_le (pfx : String) (n : Nat) (ctx : Ctx) (s : Cnt) :
    ∀ k ∈ batchSizes ((problem_15 pfx n) ctx s).1, k ≤ 1000 := by
  rw [problem_15_shape]
  simp only [batchSizes_exec, batchSizes_execMany, batchSizes_append,
    batchSizes_map_execMany, batchSizes_commit, batchSizes_nil, List.append_nil]
  intro k hk
  rcases List.mem_cons.mp hk with hk | hk
  · rw [hk, rowsRange_length]
  · simp only [List.mem_map] at hk
    obtain ⟨b, hb, rfl⟩ := hk
    exact chunkedBatches_le p15TxnRow 0 n ctx _ b hb

/-! ## The claims -/

/-- C1, counterexample: at scale token tiny (base 100), generator 1 run on
the all-zero oracle (every 10% duplication coin fires) inserts 200 rows
into customers_no_pk, not the documented base count of 100 — so the total
row count does not equal the base-count formula and is not independent of
the random draws. -/
theorem c1_counterexample :
    scaleBase "tiny" = 100 ∧
      (rowsInto "customers_no_pk"
        ((problem_01 "bad_data_workshop." (scaleBase "tiny")) (ctxAt 0) cnt0).1).length = 200 :=
  ⟨rfl, by decide⟩

/-- C1, amended: for every oracle and every requested count n, the
generators insert exactly n rows into their defect table for problems
2, 3, 4, 6, 7, 8, 9, 10, 11, 12, 13, 14 and 15 (plus exactly 100 seeded
products for problem 2 and exactly 1000 seeded accounts for problem 15),
while the row counts of problem 1 (10% per-row duplication) and problem 5
(base set of n/3 users, each with a 50% chance of 1-3 duplicates) are
probabilistic: problem 1 inserts between n and 2n rows and problem 5
between n/3 and 4*(n/3) rows; the scale controller passes the base count
to every generator except problem 13 (2x) and problem 14 (5x). -/
theorem c1_amended (pfx ai bt : String) (n : Nat) (ctx : Ctx) (s : Cnt) :
    (n ≤ (rowsInto "customers_no_pk" ((problem_01 pfx n) ctx s).1).length ∧
      (rowsInto "customers_no_pk" ((problem_01 pfx n) ctx s).1).length ≤ 2 * n) ∧
    ((rowsInto "products" ((problem_02 pfx ai n) ctx s).1).length = 100 ∧
      (rowsInto "orders_no_fk" ((problem_02 pfx ai n) ctx s).1).length = n) ∧
    (rowsInto "transactions_bad_types" ((problem_03 pfx n) ctx s).1).length = n ∧
    (rowsInto "employees_nulls" ((problem_04 pfx ai bt n) ctx s).1).length = n ∧
    (n / 3 ≤ (rowsInto "users_duplicates" ((problem_05 pfx ai n) ctx s).1).length ∧
      (rowsInto "users_duplicates" ((problem_05 pfx ai n) ctx s).1).length ≤ 4 * (n / 3)) ∧
    (rowsInto "events_bad_dates" ((problem_06 pfx n) ctx s).1).length = n ∧
    (rowsInto "contacts_bad_casing" ((problem_07 pfx n) ctx s).1).length = n ∧
    (rowsInto "inventory_whitespace" ((problem_08 pfx n) ctx s).1).length = n ∧
    (rowsInto "subscribers_bad_emails" ((problem_09 pfx n) ctx s).1).length = n ∧
    (rowsInto "sales_bad_values" ((problem_10 pfx n) ctx s).1).length = n ∧
    (rowsInto "articles_csv_tags" ((problem_11 pfx n) ctx s).1).length = n ∧
    (rowsInto "international_data" ((problem_12 pfx n) ctx s).1).length = n ∧
    (rowsInto "god_table" ((problem_13 pfx n) ctx s).1).length = n ∧
    (rowsInto "audit_log_no_index" ((problem_14 pfx ai n) ctx s).1).length = n ∧
    ((rowsInto "accounts_int_id" ((problem_15 pfx n) ctx s).1).length = 1000 ∧
      (rowsInto "transactions_str_id" ((problem_15 pfx n) ctx s).1).length = n) ∧
    (problemsList n).map (fun x => x.2.2) =
      [n, n, n, n, n, n, n, n, n, n, n, n, n * 2, n * 5, n] :=
  ⟨problem_01_count pfx n ctx s,
   problem_02_counts pfx ai n ctx s,
   chunked_count "transactions_bad_types" _ n p03Row ctx s,
   chunked_count "employees_nulls" _ n p04Row ctx s,
   problem_05_count pfx ai n ctx s,
   chunked_count "events_bad_dates" _ n p06Row ctx s,
   chunked_count "contacts_bad_casing" _ n p07Row ctx s,
   chunked_count "inventory_whitespace" _ n p08Row ctx s,
   chunked_count "subscribers_bad_emails" _ n p09Row ctx s,
   chunked_count "sales_bad_values" _ n p10Row ctx s,
   chunked_count "articles_csv_tags" _ n (p11Row n) ctx s,
   chunked_count "international_data" _ n p12Row ctx s,
   problem_13_count pfx n ctx s,
   chunked_count "audit_log_no_index" _ n p14Row ctx s,
   problem_15_counts pfx n ctx s,
   rfl⟩

/-- C2, counterexample: generator 1 run on 501 rows with the all-zero
oracle (every duplication coin fires) issues a single executemany call
carrying 1002 rows, exceeding the claimed 1000-row ceiling: the duplicate
rows of problem 1 are appended inside the current chunk, so a bulk insert
can carry up to twice the batch size. -/
theorem c2_counterexample :
    batchSizes ((problem_01 "bad_data_workshop." 501) (ctxAt 0) cnt0).1 = [1002] ∧
      1000 < 1002 :=
  ⟨by decide, by decide⟩

/-- C2, amended: for every oracle and requested count, every executemany
call of generators 2, 3, 4, 6-12, 13, 14 and 15 carries at most 1000
rows (the chunked range loops and the god-table buffer flush at exactly
1000); generator 1 can carry up to 2000 rows per call (each of the up to
1000 chunk indices may emit its row twice); generator 5 flushes once the
buffer has reached 1000, so a call carries at most 1003 rows (999 + a
final group of up to 4). -/
theorem c2_amended (pfx ai bt : String) (n : Nat) (ctx : Ctx) (s : Cnt) :
    (∀ k ∈ batchSizes ((problem_01 pfx n) ctx s).1, k ≤ 2000) ∧
    (∀ k ∈ batchSizes ((problem_02 pfx ai n) ctx s).1, k ≤ 1000) ∧
    (∀ k ∈ batchSizes ((problem_03 pfx n) ctx s).1, k ≤ 1000) ∧
    (∀ k ∈ batchSizes ((problem_04 pfx ai bt n) ctx s).1, k ≤ 1000) ∧
    (∀ k ∈ batchSizes ((problem_05 pfx ai n) ctx s).1, k ≤ 1003) ∧
    (∀ k ∈ batchSizes ((problem_06 pfx n) ctx s).1, k ≤ 1000) ∧
    (∀ k ∈ batchSizes ((problem_07 pfx n) ctx s).1, k ≤ 1000) ∧
    (∀ k ∈ batchSizes ((problem_08 pfx n) ctx s).1, k ≤ 1000) ∧
    (∀ k ∈ batchSizes ((problem_09 pfx n) ctx s).1, k ≤ 1000) ∧
    (∀ k ∈ batchSizes ((problem_10 pfx n) ctx s).1, k ≤ 1000) ∧
    (∀ k ∈ batchSizes ((problem_11 pfx n) ctx s).1, k ≤ 1000) ∧
    (∀ k ∈ batchSizes ((problem_12 pfx n) ctx s).1, k ≤ 1000) ∧
    (∀ k ∈ batchSizes ((problem_13 pfx n) ctx s).1, k ≤ 1000) ∧
    (∀ k ∈ batchSizes ((problem_14 pfx ai n) ctx s).1, k ≤ 1000) ∧
    (∀ k ∈ batchSizes ((problem_15 pfx n) ctx s).1, k ≤ 1000) :=
  ⟨problem_01_batches_le pfx n ctx s,
   problem_02_batches_le pfx ai n ctx s,
   fun k hk => chunked_batch_le "transactions_bad_types" _ n p03Row ctx s k hk,
   fun k hk => chunked_batch_le "employees_nulls" _ n p04Row ctx s k hk,
   problem_05_batches_le pfx ai n ctx s,
   fun k hk => chunked_batch_le "events_bad_dates" _ n p06Row ctx s k hk,
   fun k hk => chunked_batch_le "contacts_bad_casing" _ n p07Row ctx s k hk,
   fun k hk => chunked_batch_le "inventory_whitespace" _ n p08Row ctx s k hk,
   fun k hk => chunked_batch_le "subscribers_bad_emails" _ n p09Row ctx s k hk,
   fun k hk => chunked_batch_le "sales_bad_values" _ n p10Row ctx s k hk,
   fun k hk => chunked_batch_le "articles_csv_tags" _ n (p11Row n) ctx s k hk,
   fun k hk => chunked_batch_le "international_data" _ n p12Row ctx s k hk,
   problem_13_batches_le pfx n ctx s,
   fun k hk => chunked_batch_le "audit_log_no_index" _ n p14Row ctx s k hk,
   problem_15_batches_le pfx n ctx s⟩

/-- C2, witness for the amended theorem: instantiated at the all-zero
oracle with one requested row, the problem-3 bound applies to the single
batch of size 1. -/
theorem c2_amended_witness : (1 : Nat) ≤ 1000 :=
  (c2_amended "bad_data_workshop." "SERIAL" "BOOLEAN" 1 (ctxAt 0) cnt0).2.2.1 1 (by decide)

/-- C3: the scale controller maps tiny to 100, small to 10000, medium to
100000, large to 500000, xlarge to 1000000, and every unknown token to
the small default 10000; the schedule runs the fifteen generators in
declaration order, each with the base count, except problem 13 (2x base)
and problem 14 (5x base). -/
theorem c3_scale_controller :
    scaleBase "tiny" = 100 ∧ scaleBase "small" = 10000 ∧
    scaleBase "medium" = 100000 ∧ scaleBase "large" = 500000 ∧
    scaleBase "xlarge" = 1000000 ∧
    (∀ sc : String, sc ≠ "tiny" → sc ≠ "small" → sc ≠ "medium" → sc ≠ "large" →
      sc ≠ "xlarge" → scaleBase sc = 10000) ∧
    (∀ base : Nat, (problemsList base).map (fun x => x.2) =
      [(PId.p01, base), (PId.p02, base), (PId.p03, base), (PId.p04, base),
       (PId.p05, base), (PId.p06, base), (PId.p07, base), (PId.p08, base),
       (PId.p09, base), (PId.p10, base), (PId.p11, base), (PId.p12, base),
       (PId.p13, base * 2), (PId.p14, base * 5), (PId.p15, base)]) := by
  refine ⟨by decide, by decide, by decide, by decide, by decide, ?_, fun base => rfl⟩
  intro sc h1 h2 h3 h4 h5
  simp [scaleBase, h1, h2, h3, h4, h5]

/-- C3, witness: an unknown scale token falls back to the small default. -/
theorem c3_witness : scaleBase "gigantic" = 10000 :=
  c3_scale_controller.2.2.2.2.2.1 "gigantic" (by decide) (by decide) (by decide)
    (by decide) (by decide)

/-- C4: generator 2 seeds the products table with exactly 100 rows before
any order insert (the products bulk insert is the second event of the
trace, ahead of every orders_no_fk insert); every order row has its
customer_id in [900000,999999] or in [1,10000] and its product_id in
[500,999] or in [1,100]; the row builder takes the orphan customer range
exactly when its 30% coin fires and the orphan product range exactly when
its independent 20% coin fires; the orphan ranges are disjoint from the
valid domains. -/
theorem c4_missing_foreign_keys (pfx ai : String) (n : Nat) (ctx : Ctx) (s : Cnt) :
    (∃ (sql1 sql2 : String) (prows : List RowV) (obs : List (List RowV)),
      (problem_02 pfx ai n ctx s).1 =
        DBEvent.exec sql1 :: DBEvent.execMany "products" prows :: DBEvent.exec sql2 ::
          obs.map (DBEvent.execMany "orders_no_fk") ++ [DBEvent.commit] ∧
      prows.length = 100) ∧
    (∀ r ∈ rowsInto "orders_no_fk" ((problem_02 pfx ai n) ctx s).1,
      ∃ cid pid qty od,
        r = [Val.i cid, Val.i pid, Val.i qty, Val.dt od] ∧
        ((900000 ≤ cid ∧ cid ≤ 999999) ∨ (1 ≤ cid ∧ cid ≤ 10000)) ∧
        ((500 ≤ pid ∧ pid ≤ 999) ∨ (1 ≤ pid ∧ pid ≤ 100))) ∧
    (∀ (ctx2 : Ctx) (s2 : Cnt) (i : Nat),
      ∃ cid pid qty od,
        ((p02OrderRow i) ctx2 s2).1 = [Val.i cid, Val.i pid, Val.i qty, Val.dt od] ∧
        (ctx2.floats s2.fi < mkRat 3 10 → 900000 ≤ cid ∧ cid ≤ 999999) ∧
        (¬ ctx2.floats s2.fi < mkRat 3 10 → 1 ≤ cid ∧ cid ≤ 10000) ∧
        (ctx2.floats (s2.fi + 1) < mkRat 1 5 → 500 ≤ pid ∧ pid ≤ 999) ∧
        (¬ ctx2.floats (s2.fi + 1) < mkRat 1 5 → 1 ≤ pid ∧ pid ≤ 100)) ∧
    ((10000 : Int) < 900000 ∧ (100 : Int) < 500) := by
  refine ⟨⟨_, _, ((rowsRange 0 100 p02ProductRow) ctx s).1, _,
      problem_02_shape pfx ai n ctx s, rowsRange_length p02ProductRow 100 0 ctx s⟩,
    ?_, fun ctx2 s2 i => p02OrderRow_spec i ctx2 s2, by omega⟩
  intro r hr
  rw [problem_02_shape] at hr
  simp only [rowsInto_exec, rowsInto_execMany,
    if_neg (by decide : ¬ "products" = "orders_no_fk"), rowsInto_append,
    rowsInto_map_execMany_same, rowsInto_commit, rowsInto_nil, List.append_nil] at hr
  rw [List.mem_flatten] at hr
  obtain ⟨b, hb, hrb⟩ := hr
  refine chunkedBatches_prop p02OrderRow
    (fun r => ∃ cid pid qty od,
      r = [Val.i cid, Val.i pid, Val.i qty, Val.dt od] ∧
      ((900000 ≤ cid ∧ cid ≤ 999999) ∨ (1 ≤ cid ∧ cid ≤ 10000)) ∧
      ((500 ≤ pid ∧ pid ≤ 999) ∨ (1 ≤ pid ∧ pid ≤ 100)))
    ?_ 0 n ctx _ b hb r hrb
  intro i ctx3 s3
  obtain ⟨cid, pid, qty, od, heq, hA, hB, hC, hD⟩ := p02OrderRow_spec i ctx3 s3
  refine ⟨cid, pid, qty, od, heq, ?_, ?_⟩
  · by_cases h : ctx3.floats s3.fi < mkRat 3 10
    · exact Or.inl (hA h)
    · exact Or.inr (hB h)
  · by_cases h : ctx3.floats (s3.fi + 1) < mkRat 1 5
    · exact Or.inl (hC h)
    · exact Or.inr (hD h)

/-- C4, witness: on the all-zero oracle the 30% coin fires (0 < 3/10), so
the first order row references an orphan customer id in [900000,999999]. -/
theorem c4_witness :
    ∃ cid pid qty od,
      ((p02OrderRow 0) (ctxAt 0) cnt0).1 = [Val.i cid, Val.i pid, Val.i qty, Val.dt od] ∧
        900000 ≤ cid ∧ cid ≤ 999999 := by
  obtain ⟨-, -, hlink, -⟩ :=
    c4_missing_foreign_keys "bad_data_workshop." "SERIAL" 1 (ctxAt 0) cnt0
  obtain ⟨cid, pid, qty, od, heq, h1, -, -, -⟩ := hlink (ctxAt 0) cnt0 0
  exact ⟨cid, pid, qty, od, heq, h1 (by decide)⟩

/-- C5, counterexample: at row_count 1 (which is > 0) generator 5 inserts
no rows at all (the base set has 1/3 = 0 users), so the multiset of
(user_id, username, email) triples has no group with count greater
than 1, contradicting the claim for every row_count > 0. -/
theorem c5_counterexample :
    (0 : Nat) < 1 ∧
      rowsInto "users_duplicates"
        ((problem_05 "bad_data_workshop." "SERIAL" 1) (ctxAt 0) cnt0).1 = [] :=
  ⟨by decide, by decide⟩

/-- C5, amended: for every oracle and row_count, no (user_id, username,
email) group of generator 5 has more than 4 members (one original plus at
most three duplicates); and whenever the base set is nonempty
(row_count ≥ 3) and the first user's 50% duplication coin fires, at least
one group has count greater than 1. -/
theorem c5_amended (pfx ai : String) (n : Nat) (ctx : Ctx) (s : Cnt) :
    (∀ (u : Int) (un em : String),
      countTriple (rowsInto "users_duplicates" ((problem_05 pfx ai n) ctx s).1) u un em ≤ 4) ∧
    (3 ≤ n → ctx.floats s.fi < mkRat 1 2 →
      ∃ (u : Int) (un em : String),
        2 ≤ countTriple (rowsInto "users_duplicates" ((problem_05 pfx ai n) ctx s).1) u un em) := by
  constructor
  · intro u un em
    rw [problem_05_rows]
    have hmap : (((usersM 0 (n / 3)) ctx s).1).map User5.uid =
        List.range' (0 + 1) (((usersM 0 (n / 3)) ctx s).1).length := by
      rw [usersM_length, usersM_uids]
    exact le_trans (countTriple_le_countUid _ u un em)
      (groupsFor_countUid_le _ 0 hmap ctx _ u)
  · intro hn hcoin
    obtain ⟨k, hk⟩ : ∃ k, n / 3 = k + 1 := ⟨n / 3 - 1, by omega⟩
    refine ⟨((((mkUser 0) ctx s).1.uid : Nat) : Int), ((mkUser 0) ctx s).1.un,
      ((mkUser 0) ctx s).1.em, ?_⟩
    rw [problem_05_rows, hk]
    have hcons : ((usersM 0 (k + 1)) ctx s).1 =
        ((mkUser 0) ctx s).1 :: ((usersM (0 + 1) k) ctx ((mkUser 0) ctx s).2).1 := rfl
    rw [hcons]
    have hfi : (((usersM 0 (k + 1)) ctx s).2).fi = s.fi := usersM_fi (k + 1) 0 ctx s
    exact groupsFor_first_dup ((mkUser 0) ctx s).1 _ ctx _ (by rw [hfi]; exact hcoin)

/-- C5, witness for the amended theorem: at row_count 3 on the all-zero
oracle the first coin fires, so a duplicated group exists. -/
theorem c5_witness :
    ∃ (u : Int) (un em : String),
      2 ≤ countTriple (rowsInto "users_duplicates"
        ((problem_05 "bad_data_workshop." "SERIAL" 3) (ctxAt 0) cnt0).1) u un em :=
  (c5_amended "bad_data_workshop." "SERIAL" 3 (ctxAt 0) cnt0).2 (by omega) (by decide)

/-- C6, counterexample: two full setup runs over the same backend, scale
token and random streams, but observed at wall-clock times 0 and 730
days, produce different generated datasets (already the first inserted
customers_no_pk row differs in created_at, since faker date ranges are
anchored at the current time) — so a fixed seed alone does not make two
runs byte-identical. -/
theorem c6_counterexample :
    setupTrace DBType.postgres "tiny" (ctxAt 0) ≠
      setupTrace DBType.postgres "tiny" (ctxAt 730) := by
  decide

/-- C6, amended: a setup run is a deterministic function of the seeded
random streams and of the current wall-clock time: two runs over the same
backend and scale whose oracles agree pointwise on all three streams and
that observe the same time produce identical generated datasets. -/
theorem c6_amended (c₁ c₂ : Ctx) (dbt : DBType) (scale : String)
    (hf : ∀ k, c₁.floats k = c₂.floats k) (hn : ∀ k, c₁.nats k = c₂.nats k)
    (hs : ∀ k, c₁.strs k = c₂.strs k) (ht : c₁.now = c₂.now) :
    setupTrace dbt scale c₁ = setupTrace dbt scale c₂ := by
  have : c₁ = c₂ := by
    obtain ⟨f1, n1, s1, t1⟩ := c₁
    obtain ⟨f2, n2, s2, t2⟩ := c₂
    simp only [Ctx.mk.injEq]
    exact ⟨funext hf, funext hn, funext hs, ht⟩
  rw [this]

/-- C6, witness for the amended theorem: two runs over equal streams and
equal time agree. -/
theorem c6_witness :
    setupTrace DBType.postgres "tiny" (ctxAt 0) =
      setupTrace DBType.postgres "tiny" (ctxAt 0) :=
  c6_amended (ctxAt 0) (ctxAt 0) DBType.postgres "tiny"
    (fun _ => rfl) (fun _ => rfl) (fun _ => rfl) rfl

/-- C7: generator 15 seeds the accounts table with exactly 1000 rows
whose integer ids are 1..1000 (the accounts bulk insert precedes the
transaction inserts in the trace); every transaction row stores its
account id as text that is either the plain decimal rendering or the
10-digit zero-padded rendering of an underlying id in [1,1000], parsing
back to that id; the row builder pads exactly when its 40% coin fires. -/
theorem c7_type_coercion (pfx : String) (n : Nat) (ctx : Ctx) (s : Cnt) :
    (∃ (sql1 sql2 : String) (tevs : List DBEvent),
      (problem_15 pfx n ctx s).1 =
        DBEvent.exec sql1 :: DBEvent.exec sql2 ::
          DBEvent.execMany "accounts_int_id" ((rowsRange 0 1000 p15AccountRow) ctx s).1 ::
            tevs) ∧
    ((rowsRange 0 1000 p15AccountRow) ctx s).1.length = 1000 ∧
    ((rowsRange 0 1000 p15AccountRow) ctx s).1.map (fun r => r.head?) =
      (List.range' 1 1000).map (fun j => some (Val.i (Int.ofNat j))) ∧
    (∀ r ∈ rowsInto "transactions_str_id" ((problem_15 pfx n) ctx s).1,
      ∃ (m : Nat) (tid : Int) (aidStr : String) (amt : ℚ) (dt : Int),
        r = [Val.i tid, Val.s aidStr, Val.q amt, Val.dt dt] ∧
        1 ≤ m ∧ m ≤ 1000 ∧
        (aidStr = padZeros 10 (toString m) ∨ aidStr = toString m) ∧
        parseNat aidStr = m) ∧
    (∀ (ctx2 : Ctx) (s2 : Cnt) (i : Nat),
      ∃ (m : Nat) (aidStr : String) (amt : ℚ) (dt : Int),
        ((p15TxnRow i) ctx2 s2).1 =
          [Val.i ((i : Int) + 1), Val.s aidStr, Val.q amt, Val.dt dt] ∧
        1 ≤ m ∧ m ≤ 1000 ∧
        (ctx2.floats s2.fi < mkRat 2 5 → aidStr = padZeros 10 (toString m)) ∧
        (¬ ctx2.floats s2.fi < mkRat 2 5 → aidStr = toString m) ∧
        parseNat aidStr = m) := by
  refine ⟨⟨_, _, _, problem_15_shape pfx n ctx s⟩, rowsRange_length _ _ _ _ _,
    p15Accounts_ids 1000 0 ctx s, ?_, fun ctx2 s2 i => p15TxnRow_spec i ctx2 s2⟩
  intro r hr
  rw [problem_15_shape] at hr
  simp only [rowsInto_exec, rowsInto_execMany,
    if_neg (by decide : ¬ "accounts_int_id" = "transactions_str_id"), rowsInto_append,
    rowsInto_map_execMany_same, rowsInto_commit, rowsInto_nil, List.append_nil] at hr
  rw [List.mem_flatten] at hr
  obtain ⟨b, hb, hrb⟩ := hr
  refine chunkedBatches_prop p15TxnRow
    (fun r => ∃ (m : Nat) (tid : Int) (aidStr : String) (amt : ℚ) (dt : Int),
      r = [Val.i tid, Val.s aidStr, Val.q amt, Val.dt dt] ∧
      1 ≤ m ∧ m ≤ 1000 ∧
      (aidStr = padZeros 10 (toString m) ∨ aidStr = toString m) ∧
      parseNat aidStr = m)
    ?_ 0 n ctx _ b hb r hrb
  intro i ctx3 s3
  obtain ⟨m, aidStr, amt, dt, heq, hm1, hm2, hpad, hplain, hparse⟩ :=
    p15TxnRow_spec i ctx3 s3
  refine ⟨m, (i : Int) + 1, aidStr, amt, dt, heq, hm1, hm2, ?_, hparse⟩
  by_cases h : ctx3.floats s3.fi < mkRat 2 5
  · exact Or.inl (hpad h)
  · exact Or.inr (hplain h)

/-- C7, witness: on the all-zero oracle the 40% coin fires, so the first
transaction row stores the zero-padded text id of a valid account. -/
theorem c7_witness :
    ∃ (m : Nat) (aidStr : String) (amt : ℚ) (dt : Int),
      ((p15TxnRow 0) (ctxAt 0) cnt0).1 =
        [Val.i ((0 : Int) + 1), Val.s aidStr, Val.q amt, Val.dt dt] ∧
      1 ≤ m ∧ m ≤ 1000 ∧ aidStr = padZeros 10 (toString m) ∧ parseNat aidStr = m := by
  obtain ⟨-, -, -, -, hlink⟩ :=
    c7_type_coercion "bad_data_workshop." 1 (ctxAt 0) cnt0
  obtain ⟨m, aidStr, amt, dt, heq, hm1, hm2, hpad, -, hparse⟩ := hlink (ctxAt 0) cnt0 0
  exact ⟨m, aidStr, amt, dt, heq, hm1, hm2, hpad (by decide), hparse⟩

/-- C8: every setup or teardown run, modelled as connect-then-body inside
a try/finally, performs a close() call on the way out whatever the
outcome (including a failing connect); and close() is idempotent on null
handles: with a missing cursor it performs no cursor operation, with a
missing connection no connection operation, and after a fully failed
connect it performs no operation at all. -/
theorem c8_guaranteed_close :
    (∀ (cR : Except String AdapterH) (bR : AdapterH → Except String Unit),
      ∃ ops, LifeEvent.closeCall ops ∈ (runGuarded cR bR).2) ∧
    (∀ a : AdapterH,
      (a.cursor = Option.none → "cursor.close" ∉ closeOps a) ∧
      (a.connection = Option.none → "connection.close" ∉ closeOps a)) ∧
    closeOps ⟨Option.none, Option.none⟩ = [] := by
  refine ⟨?_, ?_, rfl⟩
  · intro cR bR
    cases cR with
    | error e => exact ⟨closeOps ⟨Option.none, Option.none⟩, by simp [runGuarded]⟩
    | ok a =>
        cases hb : bR a with
        | error e => exact ⟨closeOps a, by simp [runGuarded, hb]⟩
        | ok u => exact ⟨closeOps a, by simp [runGuarded, hb]⟩
  · intro a
    constructor
    · intro h
      simp only [closeOps, h, Option.isSome_none, Bool.false_eq_true, if_false,
        List.nil_append]
      split <;> simp
    · intro h
      simp only [closeOps, h, Option.isSome_none, Bool.false_eq_true, if_false,
        List.append_nil]
      split <;> simp

/-- C8, witness: when connect itself fails, the run still performs the
close call, and close on the all-null adapter touches no handle. -/
theorem c8_witness :
    ("cursor.close" ∉ closeOps ⟨Option.none, Option.none⟩) ∧
    (∃ ops, LifeEvent.closeCall ops ∈
      (runGuarded (Except.error "boom") (fun _ => Except.ok ())).2) :=
  ⟨(c8_guaranteed_close.2.1 ⟨Option.none, Option.none⟩).1 rfl,
   c8_guaranteed_close.1 (Except.error "boom") (fun _ => Except.ok ())⟩

/-- C9: for every supported backend the diagnose command renders exactly
15 entries, each with a non-empty query in which every occurrence of the
prefix placeholder has been substituted by the backend prefix, leaving no
literal placeholder behind. -/
theorem c9_diagnostics : ∀ t : DBType,
    (showDiagnostics t).length = 15 ∧
      (showDiagnostics t).all
        (fun e => !(e.2 == "") && !(containsPat "\x7bprefix\x7d".data e.2.data)) = true := by
  intro t
  cases t
  · exact ⟨by decide, by decide⟩
  · exact ⟨by decide, by decide⟩
  · exact ⟨by decide, by decide⟩

/-- C10: every one of the fifteen generators commits exactly once, as the
final database operation of its trace (after the last bulk insert), so an
exception raised during any earlier statement leaves none of that
generator's inserts committed. -/
theorem c10_commit_last (pid : PId) (pfx ai bt : String) (n : Nat) (ctx : Ctx) (s : Cnt) :
    commitCount (((runProblem pfx ai bt pid n) ctx s).1) = 1 ∧
      (((runProblem pfx ai bt pid n) ctx s).1).getLast? = some DBEvent.commit := by
  cases pid with
  | p01 =>
      exact commit_tail_facts (DBEvent.exec _ :: List.map (DBEvent.execMany _) _)
        (by simp [commitCount_map_execMany])
  | p02 =>
      exact commit_tail_facts
        (DBEvent.exec _ :: DBEvent.execMany _ _ :: DBEvent.exec _ ::
          List.map (DBEvent.execMany _) _)
        (by simp [commitCount_map_execMany])
  | p03 =>
      exact commit_tail_facts (DBEvent.exec _ :: List.map (DBEvent.execMany _) _)
        (by simp [commitCount_map_execMany])
  | p04 =>
      exact commit_tail_facts (DBEvent.exec _ :: List.map (DBEvent.execMany _) _)
        (by simp [commitCount_map_execMany])
  | p05 =>
      exact commit_tail_facts (DBEvent.exec _ :: List.map (DBEvent.execMany _) _)
        (by simp [commitCount_map_execMany])
  | p06 =>
      exact commit_tail_facts (DBEvent.exec _ :: List.map (DBEvent.execMany _) _)
        (by simp [commitCount_map_execMany])
  | p07 =>
      exact commit_tail_facts (DBEvent.exec _ :: List.map (DBEvent.execMany _) _)
        (by simp [commitCount_map_execMany])
  | p08 =>
      exact commit_tail_facts (DBEvent.exec _ :: List.map (DBEvent.execMany _) _)
        (by simp [commitCount_map_execMany])
  | p09 =>
      exact commit_tail_facts (DBEvent.exec _ :: List.map (DBEvent.execMany _) _)
        (by simp [commitCount_map_execMany])
  | p10 =>
      exact commit_tail_facts (DBEvent.exec _ :: List.map (DBEvent.execMany _) _)
        (by simp [commitCount_map_execMany])
  | p11 =>
      exact commit_tail_facts (DBEvent.exec _ :: List.map (DBEvent.execMany _) _)
        (by simp [commitCount_map_execMany])
  | p12 =>
      exact commit_tail_facts (DBEvent.exec _ :: List.map (DBEvent.execMany _) _)
        (by simp [commitCount_map_execMany])
  | p13 =>
      exact commit_tail_facts (DBEvent.exec _ :: List.map (DBEvent.execMany _) _)
        (by simp [commitCount_map_execMany])
  | p14 =>
      exact commit_tail_facts (DBEvent.exec _ :: List.map (DBEvent.execMany _) _)
        (by simp [commitCount_map_execMany])
  | p15 =>
      exact commit_tail_facts
        (DBEvent.exec _ :: DBEvent.exec _ :: DBEvent.execMany _ _ ::
          List.map (DBEvent.execMany _) _)
        (by simp [commitCount_map_execMany])

end BDW
